import Mathlib

/-!
Verification development for the `biosim` simulation wrapper
(`src/biosim/simulation.py`, class `BioSim`).

The repository ships only `simulation.py`; the engine module `biosim/island.py`
(class `Island` with `populate_the_island`, `annual_cycle`,
`total_island_population`, `population_in_each_cell`) and the parameter setters
it delegates to are declared and called but their code is absent.  Definitions
for those are modelled from the specification and carry a doc comment starting
with `Modelled from the spec:`.  Everything about the `BioSim` wrapper itself
(construction order, the simulate loop, the history lists, the accessors) is a
direct embedding of `simulation.py`.

Python's process-wide `random` module is embedded as an explicit pseudo-random
stream state threaded through every operation: `random.seed(s)` becomes
`seedRandom s`, and each consumption of a random value advances the position in
the stream determined by the seed.  Real-valued quantities are embedded as
rationals.
-/

set_option maxRecDepth 8000

/-! ## The shared random source -/

/-- State of the shared pseudo-random stream: the seed that determined the
stream, and the current position in it.  `random.seed` resets to position 0;
every draw advances the position by one.  -/
structure RngState where
  seed : Nat
  pos : Nat
deriving DecidableEq, Repr

/-- The resolution of the modelled random stream: raw draws lie in
`[0, randDenom)`. -/
def randDenom : Nat := 101

/-- Modelled from the spec: Python's Mersenne-Twister stream is abstracted to a
deterministic mixing function of the seed and the stream position, producing a
value below `randDenom`.  Nothing in the verified claims depends on the
distribution of the values, only on determinism of the stream. -/
def mix (seed pos : Nat) : Nat :=
  (seed * 31 + pos * 17 + 7) % randDenom

/-- Embedding of `random.seed(s)`: reset the stream to position 0 for seed `s`. -/
def seedRandom (s : Nat) : RngState := ⟨s, 0⟩

/-- Consume one raw value from the stream. -/
def draw (r : RngState) : Nat × RngState :=
  (mix r.seed r.pos, ⟨r.seed, r.pos + 1⟩)

/-- Embedding of `random.random() < p`: a Bernoulli draw with probability `p`. -/
def drawProb (r : RngState) (p : ℚ) : Bool × RngState :=
  let d := draw r
  (decide (((d.1 : ℚ) / (randDenom : ℚ)) < p), d.2)

/-- A uniform draw in `[0, n)` (`0` when `n = 0` would be degenerate; we use
`max n 1` so the result is always a valid index for nonempty lists). -/
def drawMod (r : RngState) (n : Nat) : Nat × RngState :=
  let d := draw r
  (d.1 % max n 1, d.2)

/-! ## Species, animals, terrain, cells -/

/-- The two recognized species. -/
inductive Species where
  | Herbivore
  | Carnivore
deriving DecidableEq, Repr

/-- Modelled from the spec: a single organism — species tag, age, weight. -/
structure Animal where
  species : Species
  age : Nat
  weight : ℚ
deriving DecidableEq, Repr

/-- The four landscape types. -/
inductive Terrain where
  | Water
  | Lowland
  | Highland
  | Desert
deriving DecidableEq, Repr

/-- Modelled from the spec: one grid position — terrain type, current fodder
stock, and the animals of each species present. -/
structure Cell where
  terrain : Terrain
  fodder : ℚ
  herbivores : List Animal
  carnivores : List Animal
deriving DecidableEq, Repr

/-- A fresh cell of the given terrain, before any regrowth or population. -/
def mkCell (t : Terrain) : Cell := ⟨t, 0, [], []⟩

/-- Modelled from the spec: the island grid, a row-major rectangular list of
cells. -/
structure Island where
  cells : List (List Cell)
deriving DecidableEq, Repr

/-! ## Parameter store -/

/-- The per-species parameter names recognized by the setters. -/
inductive ParamKey where
  | w_birth
  | sigma_birth
  | beta
  | eta
  | a_half
  | phi_age
  | w_half
  | phi_weight
  | gamma
  | xi
  | mu
  | omega
  | F
  | delta_phi_max
deriving DecidableEq, Repr

/-- Modelled from the spec: the validated per-species biological constants. -/
structure AnimalParams where
  w_birth : ℚ
  sigma_birth : ℚ
  beta : ℚ
  eta : ℚ
  a_half : ℚ
  phi_age : ℚ
  w_half : ℚ
  phi_weight : ℚ
  gamma : ℚ
  xi : ℚ
  mu : ℚ
  omega : ℚ
  F : ℚ
  delta_phi_max : ℚ
deriving DecidableEq, Repr

/-- Modelled from the spec: representative non-negative default values (the
spec leaves the concrete defaults to the parameter store). -/
def defaultHerbivoreParams : AnimalParams :=
  { w_birth := 8, sigma_birth := 3/2, beta := 9/10, eta := 1/20
    a_half := 40, phi_age := 3/5, w_half := 10, phi_weight := 1/10
    gamma := 1/5, xi := 11/10, mu := 1/4, omega := 2/5, F := 10
    delta_phi_max := 0 }

/-- Modelled from the spec: representative non-negative default values for the
predator species, including `ΔΦmax`. -/
def defaultCarnivoreParams : AnimalParams :=
  { w_birth := 6, sigma_birth := 1, beta := 3/4, eta := 1/8
    a_half := 40, phi_age := 3/10, w_half := 4, phi_weight := 2/5
    gamma := 4/5, xi := 11/10, mu := 2/5, omega := 2/5, F := 50
    delta_phi_max := 10 }

/-- Modelled from the spec: the process-wide store of species and landscape
parameters, mutable only through the validating setters. -/
structure ParamStore where
  herb : AnimalParams
  carn : AnimalParams
  f_max_lowland : ℚ
  f_max_highland : ℚ
deriving DecidableEq, Repr

/-- The default parameter store (Lowland and Highland fodder maxima). -/
def defaultParams : ParamStore :=
  { herb := defaultHerbivoreParams, carn := defaultCarnivoreParams
    f_max_lowland := 800, f_max_highland := 300 }

/-- The parameter set of a species. -/
def ParamStore.animal (st : ParamStore) : Species → AnimalParams
  | .Herbivore => st.herb
  | .Carnivore => st.carn

/-- The external name of each recognized parameter key. -/
def param_key_names : List (String × ParamKey) :=
  [("w_birth", .w_birth), ("sigma_birth", .sigma_birth), ("beta", .beta),
   ("eta", .eta), ("a_half", .a_half), ("phi_age", .phi_age),
   ("w_half", .w_half), ("phi_weight", .phi_weight), ("gamma", .gamma),
   ("xi", .xi), ("mu", .mu), ("omega", .omega), ("F", .F),
   ("DeltaPhiMax", .delta_phi_max)]

/-- Parse an external parameter name to a key. -/
def parse_key (s : String) : Option ParamKey :=
  param_key_names.lookup s

/-- The external string naming each key. -/
def key_string : ParamKey → String
  | .w_birth => "w_birth"
  | .sigma_birth => "sigma_birth"
  | .beta => "beta"
  | .eta => "eta"
  | .a_half => "a_half"
  | .phi_age => "phi_age"
  | .w_half => "w_half"
  | .phi_weight => "phi_weight"
  | .gamma => "gamma"
  | .xi => "xi"
  | .mu => "mu"
  | .omega => "omega"
  | .F => "F"
  | .delta_phi_max => "DeltaPhiMax"

/-- Read one parameter field by key. -/
def getP (p : AnimalParams) : ParamKey → ℚ
  | .w_birth => p.w_birth
  | .sigma_birth => p.sigma_birth
  | .beta => p.beta
  | .eta => p.eta
  | .a_half => p.a_half
  | .phi_age => p.phi_age
  | .w_half => p.w_half
  | .phi_weight => p.phi_weight
  | .gamma => p.gamma
  | .xi => p.xi
  | .mu => p.mu
  | .omega => p.omega
  | .F => p.F
  | .delta_phi_max => p.delta_phi_max

/-- Overwrite one parameter field by key. -/
def setP (p : AnimalParams) (k : ParamKey) (v : ℚ) : AnimalParams :=
  match k with
  | .w_birth => { p with w_birth := v }
  | .sigma_birth => { p with sigma_birth := v }
  | .beta => { p with beta := v }
  | .eta => { p with eta := v }
  | .a_half => { p with a_half := v }
  | .phi_age => { p with phi_age := v }
  | .w_half => { p with w_half := v }
  | .phi_weight => { p with phi_weight := v }
  | .gamma => { p with gamma := v }
  | .xi => { p with xi := v }
  | .mu => { p with mu := v }
  | .omega => { p with omega := v }
  | .F => { p with F := v }
  | .delta_phi_max => { p with delta_phi_max := v }

/-- Modelled from the spec: `ΔΦmax` exists for the predator species only; all
other keys are recognized for both species. -/
def allowed_key (sp : Species) (k : ParamKey) : Bool :=
  match sp, k with
  | .Herbivore, .delta_phi_max => false
  | _, _ => true

/-- Is the external name a recognized parameter of this species? -/
def known_key (sp : Species) (s : String) : Bool :=
  match parse_key s with
  | some k => allowed_key sp k
  | none => false

/-- Modelled from the spec: all parameter values must be non-negative, and the
annual metabolic loss fraction `eta` must not exceed 1. -/
def value_ok (k : ParamKey) (v : ℚ) : Bool :=
  decide (0 ≤ v) && (match k with | .eta => decide (v ≤ 1) | _ => true)

/-- Is the value for the named key in range? (Unknown names are not a range
violation; they are caught by `known_key`.) -/
def value_ok_str (s : String) (v : ℚ) : Bool :=
  match parse_key s with
  | some k => value_ok k v
  | none => true

/-- The error kinds of the validating setters. -/
inductive ParamError where
  | unknownKey
  | outOfRange
  | noFodderParameter
deriving DecidableEq, Repr

/-- Apply one validated override to a species parameter set. -/
def apply_animal_param (p : AnimalParams) (kv : String × ℚ) : AnimalParams :=
  match parse_key kv.1 with
  | some k => setP p k kv.2
  | none => p

/-- Modelled from the spec: validate every provided key and value first;
unknown keys or out-of-range values fail the call without applying any change
(all-or-nothing); otherwise apply a partial override, unspecified keys keeping
their former values. -/
def ParamStore.set_animal_parameters (st : ParamStore) (sp : Species)
    (kvs : List (String × ℚ)) : Except ParamError ParamStore :=
  if ¬ kvs.all (fun kv => known_key sp kv.1) then .error .unknownKey
  else if ¬ kvs.all (fun kv => value_ok_str kv.1 kv.2) then .error .outOfRange
  else
    .ok (match sp with
      | .Herbivore => { st with herb := kvs.foldl apply_animal_param st.herb }
      | .Carnivore => { st with carn := kvs.foldl apply_animal_param st.carn })

/-- Read accessor for a species parameter by its external name. -/
def ParamStore.get_animal_parameter (st : ParamStore) (sp : Species)
    (s : String) : Option ℚ :=
  match parse_key s with
  | some k => if allowed_key sp k then some (getP (st.animal sp) k) else none
  | none => none

/-- Modelled from the spec: the landscape setter accepts only the fodder
maximum `f_max` of a regrowing terrain; Water (and the never-regrowing Desert)
have no fodder parameter, and negative maxima are out of range.  All-or-nothing
as for the species setter. -/
def ParamStore.set_landscape_parameters (st : ParamStore) (t : Terrain)
    (kvs : List (String × ℚ)) : Except ParamError ParamStore :=
  if ¬ kvs.all (fun kv => kv.1 = "f_max") then .error .unknownKey
  else if ¬ kvs.all (fun kv => decide (0 ≤ kv.2)) then .error .outOfRange
  else
    match t with
    | .Lowland => .ok (kvs.foldl (fun s kv => { s with f_max_lowland := kv.2 }) st)
    | .Highland => .ok (kvs.foldl (fun s kv => { s with f_max_highland := kv.2 }) st)
    | .Water => .error .noFodderParameter
    | .Desert => .error .noFodderParameter

/-- Read accessor for a landscape fodder maximum. -/
def ParamStore.get_landscape_parameter (st : ParamStore) :
    Terrain → Option ℚ
  | .Lowland => some st.f_max_lowland
  | .Highland => some st.f_max_highland
  | .Water => none
  | .Desert => none

/-! ## Island grid construction from the map string -/

/-- The error kinds of map parsing. -/
inductive MapFormatError where
  | raggedRows
  | illegalCharacter
  | nonWaterPerimeter
deriving DecidableEq, Repr

/-- The terrain denoted by a map letter, if legal. -/
def charToTerrain (c : Char) : Option Terrain :=
  if c = 'W' then some .Water
  else if c = 'L' then some .Lowland
  else if c = 'H' then some .Highland
  else if c = 'D' then some .Desert
  else none

/-- All rows have the length of the first row. -/
def rectangular (rs : List (List Char)) : Bool :=
  match rs with
  | [] => true
  | r :: rest => rest.all (fun s => s.length = r.length)

/-- Every character is a recognized terrain letter. -/
def allLegal (rs : List (List Char)) : Bool :=
  rs.all (fun r => r.all (fun c => (charToTerrain c).isSome))

/-- Every perimeter cell is Water. -/
def perimeterWater (rs : List (List Char)) : Bool :=
  ((rs.head?.getD []).all (fun c => c = 'W')) &&
  ((rs.getLast?.getD []).all (fun c => c = 'W')) &&
  (rs.all (fun r => (r.head?.getD 'W') = 'W' && (r.getLast?.getD 'W') = 'W'))

/-- Modelled from the spec: parse a rectangular block of terrain-letter rows,
failing on ragged rows, illegal characters, or a non-Water perimeter, and build
one default cell per position. -/
def buildIsland (island_map : List String) : Except MapFormatError Island :=
  let rs := island_map.map (fun s => s.toList)
  if ¬ rectangular rs then .error .raggedRows
  else if ¬ allLegal rs then .error .illegalCharacter
  else if ¬ perimeterWater rs then .error .nonWaterPerimeter
  else .ok ⟨rs.map (fun r => r.map (fun c => mkCell ((charToTerrain c).getD .Water)))⟩

/-! ## Cell addressing -/

/-- Update the element at an index, leaving the list unchanged when the index
is out of range. -/
def updateAt (i : Nat) (f : α → α) : List α → List α
  | [] => []
  | x :: xs =>
    match i with
    | 0 => f x :: xs
    | n + 1 => x :: updateAt n f xs

/-- The cell at 0-indexed position `(i, j)`, if in bounds. -/
def Island.getCell? (isl : Island) (i j : Nat) : Option Cell :=
  (isl.cells.get? i).bind (fun row => row.get? j)

/-- Apply a function to the cell at 0-indexed position `(i, j)`. -/
def Island.modifyCell (isl : Island) (i j : Nat) (f : Cell → Cell) : Island :=
  ⟨updateAt i (updateAt j f) isl.cells⟩

/-! ## Populating the island -/

/-- One animal descriptor of a population specification: the species name and
optional age and weight. -/
structure AnimalDescriptor where
  species : String
  age : Option Nat
  weight : Option ℚ
deriving DecidableEq, Repr

/-- One entry of a population specification: a 1-indexed coordinate and the
animals to insert there. -/
structure PopEntry where
  loc : Nat × Nat
  pop : List AnimalDescriptor
deriving DecidableEq, Repr

/-- The error kinds of populating. -/
inductive PopulationError where
  | outOfBounds
  | waterCell
  | unknownSpecies
deriving DecidableEq, Repr

/-- The species denoted by a species name, if recognized. -/
def speciesOfString (s : String) : Option Species :=
  if s = "Herbivore" then some .Herbivore
  else if s = "Carnivore" then some .Carnivore
  else none

/-- Modelled from the spec: a sample from the species' birth-weight
distribution, abstracted to a deterministic function of one drawn stream value;
non-positive samples are clamped to a small positive floor. -/
def birth_weight_sample (p : AnimalParams) (r : RngState) : ℚ × RngState :=
  let d := draw r
  let raw := p.w_birth + p.sigma_birth * ((2 * (d.1 : ℚ) / (randDenom : ℚ)) - 1)
  (if raw ≤ 0 then 1/2 else raw, d.2)

/-- Build one animal from a descriptor: age defaults to 0, a missing weight is
sampled from the birth-weight distribution; an unrecognized species name
fails. -/
def mkAnimal (ps : ParamStore) (d : AnimalDescriptor) (r : RngState) :
    Option (Animal × RngState) :=
  match speciesOfString d.species with
  | none => none
  | some sp =>
    match d.weight with
    | some w => some (⟨sp, d.age.getD 0, w⟩, r)
    | none =>
      let s := birth_weight_sample (ps.animal sp) r
      some (⟨sp, d.age.getD 0, s.1⟩, s.2)

/-- Build all animals of one entry, threading the random stream; fails if any
descriptor names an unrecognized species. -/
def buildAnimals (ps : ParamStore) : List AnimalDescriptor → RngState →
    Option (List Animal × RngState)
  | [], r => some ([], r)
  | d :: rest, r =>
    match mkAnimal ps d r with
    | none => none
    | some (a, r1) =>
      match buildAnimals ps rest r1 with
      | none => none
      | some (more, r2) => some (a :: more, r2)

/-- Insert one animal into the matching species collection of a cell. -/
def insertAnimal (c : Cell) (a : Animal) : Cell :=
  match a.species with
  | .Herbivore => { c with herbivores := c.herbivores ++ [a] }
  | .Carnivore => { c with carnivores := c.carnivores ++ [a] }

/-- Modelled from the spec: apply one population entry — fail on an
out-of-bounds 1-indexed coordinate, a Water target cell, or an unrecognized
species, with no partial insertion for the offending entry; otherwise insert
every described animal into the addressed cell. -/
def populate_entry (ps : ParamStore) (isl : Island) (e : PopEntry)
    (r : RngState) : Except PopulationError (Island × RngState) :=
  if e.loc.1 = 0 ∨ e.loc.2 = 0 then .error .outOfBounds
  else
    match isl.getCell? (e.loc.1 - 1) (e.loc.2 - 1) with
    | none => .error .outOfBounds
    | some c =>
      if c.terrain = .Water then .error .waterCell
      else
        match buildAnimals ps e.pop r with
        | none => .error .unknownSpecies
        | some (anims, r1) =>
          .ok (isl.modifyCell (e.loc.1 - 1) (e.loc.2 - 1)
                 (fun cell => anims.foldl insertAnimal cell), r1)

/-- Modelled from the spec: apply the entries of a population specification in
order, adding to existing populations and never clearing prior state; a failing
entry stops the call, and previously applied entries of the same call are not
rolled back. -/
def Island.populate_the_island (ps : ParamStore) (isl : Island) :
    List PopEntry → RngState → Island × RngState × Option PopulationError
  | [], r => (isl, r, none)
  | e :: rest, r =>
    match populate_entry ps isl e r with
    | .error err => (isl, r, some err)
    | .ok (isl1, r1) => Island.populate_the_island ps isl1 rest r1

/-! ## Aggregate accessors -/

/-- Modelled from the spec: per-cell population counts per species, in stable
row-major order matching the map layout. -/
def Island.population_in_each_cell (isl : Island) : List (Nat × Nat) :=
  (isl.cells.map (fun row =>
    row.map (fun c => (c.herbivores.length, c.carnivores.length)))).flatten

/-- Modelled from the spec: total population per species across the whole
grid, herbivores first. -/
def Island.total_island_population (isl : Island) : Nat × Nat :=
  ((isl.cells.map (fun row => (row.map (fun c => c.herbivores.length)).sum)).sum,
   (isl.cells.map (fun row => (row.map (fun c => c.carnivores.length)).sum)).sum)

/-! ## The annual cycle

Modelled from the spec: `biosim/island.py` is absent from `src/`, so the
six-phase yearly update is modelled from §4.2–§4.3 of the specification.  The
real-valued logistic fitness curves use exponentials, which are not computable
over ℚ; fitness is therefore embedded as a rational surrogate that keeps the
properties the spec states (Φ ∈ [0,1], Φ = 0 exactly when weight ≤ 0, governs
the same probabilities).  The randomized iteration orders of the feeding and
procreation phases are abstracted to a drawn rotation of the iteration list.
No verified claim depends on these internals; they only make the modelled
engine a concrete deterministic consumer of the shared random stream. -/

/-- Modelled from the spec: rational surrogate of the fitness Φ — decreasing
in age, increasing in weight, Φ ∈ [0,1], and Φ = 0 when weight ≤ 0. -/
def fitness (p : AnimalParams) (a : Animal) : ℚ :=
  if a.weight ≤ 0 then 0
  else (a.weight / (a.weight + p.w_half + 1)) *
       ((p.a_half + 1) / ((a.age : ℚ) + p.a_half + 1))

/-- Rotate a list by `k` positions (the drawn randomized iteration order). -/
def rotateBy (k : Nat) (xs : List α) : List α :=
  xs.drop (k % max xs.length 1) ++ xs.take (k % max xs.length 1)

/-- Modelled from the spec, phase 1: a regrowing terrain's fodder is set to
its configured maximum (overwrite, not additive); other terrains never have
fodder. -/
def regrow (ps : ParamStore) (c : Cell) : Cell :=
  match c.terrain with
  | .Lowland => { c with fodder := ps.f_max_lowland }
  | .Highland => { c with fodder := ps.f_max_highland }
  | .Water => c
  | .Desert => c

/-- Phase 2 kernel: each herbivore in order eats `min F fodder_left`, gaining
`beta` times the amount eaten. -/
def feed_herbivores_go (beta F : ℚ) : List Animal → ℚ → List Animal × ℚ
  | [], fodder => ([], fodder)
  | a :: rest, fodder =>
    let eaten := min F fodder
    let res := feed_herbivores_go beta F rest (fodder - eaten)
    ({ a with weight := a.weight + beta * eaten } :: res.1, res.2)

/-- Modelled from the spec, phase 2: feed the herbivores of a cell in a drawn
randomized order. -/
def feed_herbivores (ps : ParamStore) (c : Cell) (r : RngState) :
    Cell × RngState :=
  let d := drawMod r c.herbivores.length
  let res := feed_herbivores_go ps.herb.beta ps.herb.F
               (rotateBy d.1 c.herbivores) c.fodder
  ({ c with herbivores := res.1, fodder := res.2 }, d.2)

/-- Insert an animal into a list kept sorted by ascending fitness. -/
def insertByFitness (p : AnimalParams) (a : Animal) : List Animal → List Animal
  | [] => [a]
  | b :: rest =>
    if fitness p a ≤ fitness p b then a :: b :: rest
    else b :: insertByFitness p a rest

/-- Sort animals by ascending fitness (weakest first). -/
def sortByFitness (p : AnimalParams) (xs : List Animal) : List Animal :=
  xs.foldr (insertByFitness p) []

/-- Modelled from the spec: kill probability per attempt — 0 when the predator
is not fitter than the prey, 1 when the fitness advantage reaches `ΔΦmax`, and
proportional in between. -/
def kill_probability (pc ph : AnimalParams) (carn prey : Animal) : ℚ :=
  let d := fitness pc carn - fitness ph prey
  if d ≤ 0 then 0
  else if pc.delta_phi_max ≤ d then 1
  else d / pc.delta_phi_max

/-- Phase 3 kernel: one carnivore attacks the prey list in order (weakest
first), consuming per kill at most the prey's weight, until its remaining
appetite is exhausted or no prey remains; killed prey are removed. -/
def hunt (ps : ParamStore) (carn : Animal) (appetite : ℚ) :
    List Animal → RngState → Animal × List Animal × RngState
  | [], r => (carn, [], r)
  | p :: rest, r =>
    if appetite ≤ 0 then (carn, p :: rest, r)
    else
      let d := drawProb r (kill_probability ps.carn ps.herb carn p)
      if d.1 then
        let eaten := min p.weight appetite
        hunt ps { carn with weight := carn.weight + ps.carn.beta * eaten }
          (appetite - eaten) rest d.2
      else
        let res := hunt ps carn appetite rest d.2
        (res.1, p :: res.2.1, res.2.2)

/-- Phase 3 kernel: each carnivore in order hunts the surviving prey pool, so
later predators see the pool reduced by earlier kills. -/
def feed_carnivores_go (ps : ParamStore) : List Animal → List Animal →
    RngState → List Animal × List Animal × RngState
  | [], prey, r => ([], prey, r)
  | c :: cs, prey, r =>
    let h := hunt ps c ps.carn.F prey r
    let res := feed_carnivores_go ps cs h.2.1 h.2.2
    (h.1 :: res.1, res.2.1, res.2.2)

/-- Modelled from the spec, phase 3: feed the carnivores of a cell in a drawn
randomized order against the herbivores ordered weakest first. -/
def feed_carnivores (ps : ParamStore) (c : Cell) (r : RngState) :
    Cell × RngState :=
  let d := drawMod r c.carnivores.length
  let res := feed_carnivores_go ps (rotateBy d.1 c.carnivores)
               (sortByFitness ps.herb c.herbivores) d.2
  ({ c with carnivores := res.1, herbivores := res.2.1 }, res.2.2)

/-- Phase 4 kernel: each animal heavy enough may give birth with probability
`min 1 (gamma * Φ * (N - 1))`, `N` counted before any births this phase; the
newborn's weight is sampled, the birth is cancelled if it would make the
mother's weight negative, and otherwise the mother loses `xi` times the
newborn weight.  Returns the mothers and the newborns. -/
def procreate_go (p : AnimalParams) (sp : Species) (N : Nat) :
    List Animal → RngState → List Animal × List Animal × RngState
  | [], r => ([], [], r)
  | a :: rest, r =>
    if p.xi * (p.w_birth + p.sigma_birth) ≤ a.weight then
      let d := drawProb r (min 1 (p.gamma * fitness p a * ((N : ℚ) - 1)))
      if d.1 then
        let s := birth_weight_sample p d.2
        if a.weight - p.xi * s.1 < 0 then
          let res := procreate_go p sp N rest s.2
          (a :: res.1, res.2.1, res.2.2)
        else
          let res := procreate_go p sp N rest s.2
          ({ a with weight := a.weight - p.xi * s.1 } :: res.1,
           (⟨sp, 0, s.1⟩ : Animal) :: res.2.1, res.2.2)
      else
        let res := procreate_go p sp N rest d.2
        (a :: res.1, res.2.1, res.2.2)
    else
      let res := procreate_go p sp N rest r
      (a :: res.1, res.2.1, res.2.2)

/-- Modelled from the spec, phase 4: procreation for each species
independently, in a drawn randomized order, newborns joining the same cell
with age 0. -/
def procreation (ps : ParamStore) (c : Cell) (r : RngState) :
    Cell × RngState :=
  let dh := drawMod r c.herbivores.length
  let h := procreate_go ps.herb .Herbivore c.herbivores.length
             (rotateBy dh.1 c.herbivores) dh.2
  let dc := drawMod h.2.2 c.carnivores.length
  let k := procreate_go ps.carn .Carnivore c.carnivores.length
             (rotateBy dc.1 c.carnivores) dc.2
  ({ c with herbivores := h.1 ++ h.2.1, carnivores := k.1 ++ k.2.1 }, k.2.2)

/-- Modelled from the spec, phase 5: every animal's age increases by 1, then
its weight decreases by `eta` times its weight, in that order. -/
def aging_and_metabolism (ps : ParamStore) (c : Cell) : Cell :=
  { c with
    herbivores := c.herbivores.map (fun a =>
      { a with age := a.age + 1, weight := a.weight - ps.herb.eta * a.weight })
    carnivores := c.carnivores.map (fun a =>
      { a with age := a.age + 1, weight := a.weight - ps.carn.eta * a.weight }) }

/-- Phase 6 kernel: an animal dies with certainty when its weight is ≤ 0, and
otherwise with probability `omega * (1 - Φ)`, independent draws per animal. -/
def death_go (p : AnimalParams) : List Animal → RngState →
    List Animal × RngState
  | [], r => ([], r)
  | a :: rest, r =>
    if a.weight ≤ 0 then death_go p rest r
    else
      let d := drawProb r (p.omega * (1 - fitness p a))
      let res := death_go p rest d.2
      (if d.1 then res.1 else a :: res.1, res.2)

/-- Modelled from the spec, phase 6: the death phase of one cell. -/
def death (ps : ParamStore) (c : Cell) (r : RngState) : Cell × RngState :=
  let h := death_go ps.herb c.herbivores r
  let k := death_go ps.carn c.carnivores h.2
  ({ c with herbivores := h.1, carnivores := k.1 }, k.2)

/-! ## Migration -/

/-- A cell exists and is not Water. -/
def passable (isl : Island) (i j : Nat) : Bool :=
  match isl.getCell? i j with
  | some c => decide (c.terrain ≠ .Water)
  | none => false

/-- The up-to-four orthogonally adjacent 0-indexed coordinates. -/
def neighbor_coords (i j : Nat) : List (Nat × Nat) :=
  (if i = 0 then [] else [(i - 1, j)]) ++ [(i + 1, j)] ++
  (if j = 0 then [] else [(i, j - 1)]) ++ [(i, j + 1)]

/-- The passable orthogonal neighbors of a cell. -/
def passable_neighbors (isl : Island) (i j : Nat) : List (Nat × Nat) :=
  (neighbor_coords i j).filter (fun ij => passable isl ij.1 ij.2)

/-- Modelled from the spec: one animal migrates with probability `mu * Φ`; on
success it chooses uniformly among the passable neighbors of its cell in the
pre-migration grid, and stays if there are none. -/
def migrate_one (p : AnimalParams) (isl0 : Island) (i j : Nat) (a : Animal)
    (r : RngState) : Option (Nat × Nat) × RngState :=
  let d := drawProb r (p.mu * fitness p a)
  if d.1 then
    let ns := passable_neighbors isl0 i j
    match ns with
    | [] => (none, d.2)
    | _ :: _ =>
      let k := drawMod d.2 ns.length
      (ns.get? k.1, k.2)
  else (none, d.2)

/-- Decide the moves of one species list of one cell: returns the animals that
stay and the decided relocations. -/
def migrate_list (p : AnimalParams) (isl0 : Island) (i j : Nat) :
    List Animal → RngState →
    List Animal × List ((Nat × Nat) × Animal) × RngState
  | [], r => ([], [], r)
  | a :: rest, r =>
    let d := migrate_one p isl0 i j a r
    let res := migrate_list p isl0 i j rest d.2
    match d.1 with
    | none => (a :: res.1, res.2.1, res.2.2)
    | some ij => (res.1, (ij, a) :: res.2.1, res.2.2)

/-- Decide the moves of one row of cells, `j` counting the column. -/
def migrate_row (ps : ParamStore) (isl0 : Island) (i : Nat) :
    Nat → List Cell → RngState →
    List Cell × List ((Nat × Nat) × Animal) × RngState
  | _, [], r => ([], [], r)
  | j, c :: rest, r =>
    let h := migrate_list ps.herb isl0 i j c.herbivores r
    let k := migrate_list ps.carn isl0 i j c.carnivores h.2.2
    let res := migrate_row ps isl0 i (j + 1) rest k.2.2
    ({ c with herbivores := h.1, carnivores := k.1 } :: res.1,
     h.2.1 ++ k.2.1 ++ res.2.1, res.2.2)

/-- Decide the moves of all rows, `i` counting the row. -/
def migrate_rows (ps : ParamStore) (isl0 : Island) :
    Nat → List (List Cell) → RngState →
    List (List Cell) × List ((Nat × Nat) × Animal) × RngState
  | _, [], r => ([], [], r)
  | i, row :: rest, r =>
    let h := migrate_row ps isl0 i 0 row r
    let res := migrate_rows ps isl0 (i + 1) rest h.2.2
    (h.1 :: res.1, h.2.1 ++ res.2.1, res.2.2)

/-- Apply the decided relocations: insert each moved animal into its
destination cell. -/
def apply_moves (isl : Island) : List ((Nat × Nat) × Animal) → Island
  | [] => isl
  | m :: rest =>
    apply_moves (isl.modifyCell m.1.1 m.1.2 (fun c => insertAnimal c m.2)) rest

/-- Modelled from the spec: the separate migration pass — all moves are
decided against the pre-migration grid, then applied atomically. -/
def migration (ps : ParamStore) (isl : Island) (r : RngState) :
    Island × RngState :=
  let res := migrate_rows ps isl 0 isl.cells r
  (apply_moves ⟨res.1⟩ res.2.1, res.2.2)

/-! ## Assembling the year -/

/-- Thread a per-cell transformation through one row, consuming the stream in
cell order. -/
def map_row_rng (f : Cell → RngState → Cell × RngState) :
    List Cell → RngState → List Cell × RngState
  | [], r => ([], r)
  | c :: cs, r =>
    let x := f c r
    let res := map_row_rng f cs x.2
    (x.1 :: res.1, res.2)

/-- Thread a per-cell transformation through all rows in row-major order. -/
def map_cells_rng (f : Cell → RngState → Cell × RngState) :
    List (List Cell) → RngState → List (List Cell) × RngState
  | [], r => ([], r)
  | row :: rest, r =>
    let x := map_row_rng f row r
    let res := map_cells_rng f rest x.2
    (x.1 :: res.1, res.2)

/-- Phases 1–4 of one cell: regrow, feed herbivores, feed carnivores,
procreate. -/
def cell_cycle_first (ps : ParamStore) (c : Cell) (r : RngState) :
    Cell × RngState :=
  let c2 := feed_herbivores ps (regrow ps c) r
  let c3 := feed_carnivores ps c2.1 c2.2
  procreation ps c3.1 c3.2

/-- Phases 5–6 of one cell: aging and metabolism, then death. -/
def cell_cycle_second (ps : ParamStore) (c : Cell) (r : RngState) :
    Cell × RngState :=
  death ps (aging_and_metabolism ps c) r

/-- Modelled from the spec: one full year — phases 1–4 per cell in row-major
order, the separate simultaneous migration pass, then aging/metabolism and
death per cell.  Deterministic given the island and the stream state; the
wrapper reads the island-wide totals of the result. -/
def Island.annual_cycle (ps : ParamStore) (isl : Island) (r : RngState) :
    Island × RngState :=
  let a := map_cells_rng (cell_cycle_first ps) isl.cells r
  let b := migration ps ⟨a.1⟩ a.2
  let c := map_cells_rng (cell_cycle_second ps) b.1.cells b.2
  (⟨c.1⟩, c.2)

/-! ## The `BioSim` wrapper (direct embedding of `simulation.py`) -/

/-- The state of a `BioSim` instance together with the process-wide state it
manipulates (the parameter store and the shared random stream).  The
plotting-only constructor attributes (`ymax_animals`, `cmax_animals`,
`img_base`, `img_fmt`) are stored but never read by any modelled operation and
are omitted. -/
structure BioSim where
  last_year_simulated : Nat
  island_map : List String
  ini_pop : List PopEntry
  island : Island
  herbivore_list : List Nat
  carnivore_list : List Nat
  params : ParamStore
  rng : RngState
deriving DecidableEq, Repr

/-- A construction failure: a malformed map or an invalid initial population
specification. -/
inductive SimError where
  | mapError (e : MapFormatError)
  | popError (e : PopulationError)
deriving DecidableEq, Repr

/-- Embedding of `BioSim.__init__`: seed the shared random source first, build the island
from the map string, populate it with the initial population, and initialize
each history list with the island-wide total of its species. -/
def mkBioSim (island_map : List String) (ini_pop : List PopEntry) (seed : Nat)
    (st : ParamStore) : Except SimError BioSim :=
  match buildIsland island_map with
  | .error e => .error (.mapError e)
  | .ok isl0 =>
    match (Island.populate_the_island st isl0 ini_pop (seedRandom seed)).2.2 with
    | some e => .error (.popError e)
    | none =>
      .ok { last_year_simulated := 0
            island_map := island_map
            ini_pop := ini_pop
            island := (Island.populate_the_island st isl0 ini_pop
              (seedRandom seed)).1
            herbivore_list := [(Island.total_island_population
              (Island.populate_the_island st isl0 ini_pop (seedRandom seed)).1).1]
            carnivore_list := [(Island.total_island_population
              (Island.populate_the_island st isl0 ini_pop (seedRandom seed)).1).2]
            params := st
            rng := (Island.populate_the_island st isl0 ini_pop
              (seedRandom seed)).2.1 }

/-- One iteration of the `simulate` loop: run the annual cycle and append the
new island-wide totals to the history lists. -/
def sim_year (b : BioSim) : BioSim :=
  let res := Island.annual_cycle b.params b.island b.rng
  { b with
    island := res.1
    rng := res.2
    herbivore_list :=
      b.herbivore_list ++ [(Island.total_island_population res.1).1]
    carnivore_list :=
      b.carnivore_list ++ [(Island.total_island_population res.1).2] }

/-- Embedding of `BioSim.simulate(num_years, vis_years=1, img_years=None)`: run the annual
cycle `num_years` times, appending the totals each year.  The visualization
arguments are accepted but, as in the source, never read. -/
def BioSim.simulate (num_years vis_years : Nat) (img_years : Option Nat)
    (b : BioSim) : BioSim :=
  match num_years with
  | 0 => b
  | n + 1 => BioSim.simulate n vis_years img_years (sim_year b)

/-- Embedding of `BioSim.add_population(population)`: delegate to the island's populate
operation on the current island state.  A failing entry raises after the
preceding entries were applied; the history lists are not touched. -/
def BioSim.add_population (b : BioSim) (population : List PopEntry) :
    BioSim × Option PopulationError :=
  let res := Island.populate_the_island b.params b.island population b.rng
  ({ b with island := res.1, rng := res.2.1 }, res.2.2)

/-- Embedding of `BioSim.set_animal_parameters(species, params)`: delegate to the species'
validating setter; on failure the call raises and the store is unchanged. -/
def BioSim.set_animal_parameters (b : BioSim) (sp : Species)
    (kvs : List (String × ℚ)) : BioSim × Option ParamError :=
  match b.params.set_animal_parameters sp kvs with
  | .ok st => ({ b with params := st }, none)
  | .error e => (b, some e)

/-- Embedding of `BioSim.set_landscape_parameters(landscape, params)`: delegate to the
landscape's validating setter; on failure the call raises and the store is
unchanged. -/
def BioSim.set_landscape_parameters (b : BioSim) (t : Terrain)
    (kvs : List (String × ℚ)) : BioSim × Option ParamError :=
  match b.params.set_landscape_parameters t kvs with
  | .ok st => ({ b with params := st }, none)
  | .error e => (b, some e)

/-- The `year` property: returns `last_year_simulated`. -/
def BioSim.year (b : BioSim) : Nat := b.last_year_simulated

/-- The `num_animals` property: the sum of the LAST entries of the two history
lists (`self.herbivore_list[-1] + self.carnivore_list[-1]`).  The lists are
nonempty for every constructed instance; the default 0 of `getLastD` is never
reached from a constructed state. -/
def BioSim.num_animals (b : BioSim) : Nat :=
  b.herbivore_list.getLastD 0 + b.carnivore_list.getLastD 0

/-- The `num_animals_per_species` property: a fresh dictionary read directly
from the island's current totals, with keys `"Herbivores"` and (singular)
`"Carnivore"`. -/
def BioSim.num_animals_per_species (b : BioSim) : List (String × Nat) :=
  [("Herbivores", (Island.total_island_population b.island).1),
   ("Carnivore", (Island.total_island_population b.island).2)]

/-- The shape of the `animal_distribution` dataframe: its column names and its
row-major per-cell counts. -/
structure DataFrame where
  columns : List String
  rows : List (Nat × Nat)
deriving DecidableEq, Repr

/-- The `animal_distribution` property: per-cell counts per species under the
column names `"Herbivores"` and (plural) `"Carnivores"`. -/
def BioSim.animal_distribution (b : BioSim) : DataFrame :=
  ⟨["Herbivores", "Carnivores"], Island.population_in_each_cell b.island⟩

/-! ## Sequences of wrapper operations -/

/-- One wrapper call in a run: a `simulate` call or an `add_population`
call. -/
inductive Op where
  | sim (num_years vis_years : Nat) (img_years : Option Nat)
  | addPop (population : List PopEntry)
deriving DecidableEq, Repr

/-- Apply one wrapper call to a state (an `add_population` failure raises in
Python but leaves the same partially updated state behind). -/
def applyOp (b : BioSim) : Op → BioSim
  | .sim n v i => BioSim.simulate n v i b
  | .addPop p => (BioSim.add_population b p).1

/-- Apply a sequence of wrapper calls in order. -/
def applyOps (b : BioSim) (ops : List Op) : BioSim := ops.foldl applyOp b

/-- Iterate the annual cycle a given number of years, threading the island and
the stream state. -/
def run_years (ps : ParamStore) : Nat → Island → RngState → Island × RngState
  | 0, isl, r => (isl, r)
  | n + 1, isl, r =>
    let a := Island.annual_cycle ps isl r
    run_years ps n a.1 a.2

/-- The last recorded history entries agree with the island's current
totals.  Construction establishes this and `simulate` preserves it;
`add_population` breaks it until the next simulated year. -/
def hist_ok (b : BioSim) : Prop :=
  b.herbivore_list.getLastD 0 = (Island.total_island_population b.island).1 ∧
  b.carnivore_list.getLastD 0 = (Island.total_island_population b.island).2

/-- The herbivores among a list of animals. -/
def herbsOf (anims : List Animal) : List Animal :=
  anims.filter (fun a => a.species == Species.Herbivore)

/-- The carnivores among a list of animals. -/
def carnsOf (anims : List Animal) : List Animal :=
  anims.filter (fun a => a.species == Species.Carnivore)

/-- The number of herbivore descriptors in one entry's animal list. -/
def herb_descriptors (ds : List AnimalDescriptor) : Nat :=
  (ds.filter (fun d => d.species == "Herbivore")).length

/-- The number of carnivore descriptors in one entry's animal list. -/
def carn_descriptors (ds : List AnimalDescriptor) : Nat :=
  (ds.filter (fun d => d.species == "Carnivore")).length

/-- The number of herbivores described by a population specification. -/
def herbs_described (pop : List PopEntry) : Nat :=
  (pop.map (fun e => herb_descriptors e.pop)).sum

/-- The number of carnivores described by a population specification. -/
def carns_described (pop : List PopEntry) : Nat :=
  (pop.map (fun e => carn_descriptors e.pop)).sum

/-- The second island extends the first cell by cell: same shape and terrain,
and every cell's species lists extended only at the end — so every animal
present before is still present, in place. -/
def Island.grows_into (isl isl2 : Island) : Prop :=
  ∀ i j c, Island.getCell? isl i j = some c →
    ∃ c2, Island.getCell? isl2 i j = some c2 ∧ c2.terrain = c.terrain ∧
      (∃ t, c2.herbivores = c.herbivores ++ t) ∧
      (∃ t, c2.carnivores = c.carnivores ++ t)

/-! ## Concrete instances used to witness the theorems -/

deriving instance DecidableEq for Except

/-- A small island: a single Lowland cell enclosed by Water. -/
def exMap : List String := ["WWW", "WLW", "WWW"]

/-- Two herbivores at the Lowland cell (1-indexed coordinate (2,2)). -/
def exPop : List PopEntry :=
  [⟨(2, 2), [⟨"Herbivore", some 5, some 20⟩, ⟨"Herbivore", some 3, some 15⟩]⟩]

/-- Fallback state used only to make the extraction below total; the
construction on `exMap`/`exPop` succeeds, so it is never produced. -/
def fallbackBioSim : BioSim :=
  { last_year_simulated := 0, island_map := [], ini_pop := [], island := ⟨[]⟩
    herbivore_list := [0], carnivore_list := [0], params := defaultParams
    rng := ⟨0, 0⟩ }

/-- The state constructed from the small island with seed 123. -/
def exB : BioSim :=
  (mkBioSim exMap exPop 123 defaultParams).toOption.getD fallbackBioSim

/-- One further herbivore added after construction. -/
def exAdd : List PopEntry := [⟨(2, 2), [⟨"Herbivore", some 2, some 10⟩]⟩]

/-! ## Discipline of the shared random stream

The stream is reseeded only by `seedRandom` (which resets the position to 0);
every other operation merely consumes it.  `RngAdvance r s` states that `s` is
a later state of the same stream as `r`: the seed is unchanged and the
position has not gone backwards. -/

/-- The second state is a later state of the same stream. -/
def RngAdvance (r s : RngState) : Prop := s.seed = r.seed ∧ r.pos ≤ s.pos

theorem rngAdvance_refl (r : RngState) : RngAdvance r r := ⟨rfl, Nat.le_refl _⟩

theorem rngAdvance_trans {a b c : RngState} (h1 : RngAdvance a b)
    (h2 : RngAdvance b c) : RngAdvance a c :=
  ⟨h2.1.trans h1.1, h1.2.trans h2.2⟩

theorem rngAdvance_draw (r : RngState) : RngAdvance r (draw r).2 :=
  ⟨rfl, Nat.le_succ _⟩

theorem rngAdvance_drawProb (r : RngState) (p : ℚ) :
    RngAdvance r (drawProb r p).2 := rngAdvance_draw r

theorem rngAdvance_drawMod (r : RngState) (n : Nat) :
    RngAdvance r (drawMod r n).2 := rngAdvance_draw r

theorem rngAdvance_birth_weight_sample (p : AnimalParams) (r : RngState) :
    RngAdvance r (birth_weight_sample p r).2 := rngAdvance_draw r

theorem rngAdvance_mkAnimal {ps : ParamStore} {d : AnimalDescriptor}
    {r : RngState} {a : Animal} {r1 : RngState}
    (h : mkAnimal ps d r = some (a, r1)) : RngAdvance r r1 := by
  unfold mkAnimal at h
  split at h
  · exact absurd h (by simp)
  · split at h
    · rw [Option.some_inj] at h
      injection h with h1 h2
      subst h2
      exact rngAdvance_refl r
    · rw [Option.some_inj] at h
      injection h with h1 h2
      subst h2
      exact rngAdvance_birth_weight_sample _ r


theorem rngAdvance_buildAnimals {ps : ParamStore} : ∀ (ds : List AnimalDescriptor)
    (r : RngState) (more : List Animal) (r2 : RngState),
    buildAnimals ps ds r = some (more, r2) → RngAdvance r r2 := by
  intro ds
  induction ds with
  | nil =>
    intro r more r2 h
    simp only [buildAnimals, Option.some_inj] at h
    injection h with h1 h2
    subst h2
    exact rngAdvance_refl r
  | cons d rest ih =>
    intro r more r2 h
    simp only [buildAnimals] at h
    split at h
    · exact absurd h (by simp)
    next a r1 heq =>
      split at h
      · exact absurd h (by simp)
      next more1 r3 heq2 =>
        rw [Option.some_inj] at h
        injection h with h1 h2
        subst h2
        exact rngAdvance_trans (rngAdvance_mkAnimal heq) (ih r1 more1 r3 heq2)

theorem rngAdvance_populate_entry {ps : ParamStore} {isl : Island}
    {e : PopEntry} {r : RngState} {isl1 : Island} {r1 : RngState}
    (h : populate_entry ps isl e r = .ok (isl1, r1)) : RngAdvance r r1 := by
  unfold populate_entry at h
  split at h
  · exact absurd h (by simp)
  · split at h
    · exact absurd h (by simp)
    · split at h
      · exact absurd h (by simp)
      · split at h
        · exact absurd h (by simp)
        next anims r2 heq =>
          rw [Except.ok.injEq] at h
          injection h with h1 h2
          subst h2
          exact rngAdvance_buildAnimals _ _ _ _ heq

theorem rngAdvance_populate_the_island (ps : ParamStore) :
    ∀ (pop : List PopEntry) (isl : Island) (r : RngState),
      RngAdvance r (Island.populate_the_island ps isl pop r).2.1 := by
  intro pop
  induction pop with
  | nil => intro isl r; exact rngAdvance_refl r
  | cons e rest ih =>
    intro isl r
    simp only [Island.populate_the_island]
    split
    · exact rngAdvance_refl r
    next isl1 r1 heq =>
      exact rngAdvance_trans (rngAdvance_populate_entry heq) (ih isl1 r1)

theorem rngAdvance_feed_herbivores (ps : ParamStore) (c : Cell)
    (r : RngState) : RngAdvance r (feed_herbivores ps c r).2 := by
  unfold feed_herbivores
  exact rngAdvance_drawMod r c.herbivores.length

theorem rngAdvance_hunt (ps : ParamStore) : ∀ (prey : List Animal)
    (carn : Animal) (app : ℚ) (r : RngState),
    RngAdvance r (hunt ps carn app prey r).2.2 := by
  intro prey
  induction prey with
  | nil => intro carn app r; exact rngAdvance_refl r
  | cons p rest ih =>
    intro carn app r
    simp only [hunt]
    split
    · exact rngAdvance_refl r
    · split
      · exact rngAdvance_trans (rngAdvance_drawProb r _) (ih _ _ _)
      · exact rngAdvance_trans (rngAdvance_drawProb r _) (ih _ _ _)

theorem rngAdvance_feed_carnivores_go (ps : ParamStore) : ∀ (cs prey : List Animal)
    (r : RngState), RngAdvance r (feed_carnivores_go ps cs prey r).2.2 := by
  intro cs
  induction cs with
  | nil => intro prey r; exact rngAdvance_refl r
  | cons c cs ih =>
    intro prey r
    exact rngAdvance_trans (rngAdvance_hunt ps prey c _ r) (ih _ _)

theorem rngAdvance_feed_carnivores (ps : ParamStore) (c : Cell)
    (r : RngState) : RngAdvance r (feed_carnivores ps c r).2 := by
  unfold feed_carnivores
  exact rngAdvance_trans (rngAdvance_drawMod r c.carnivores.length)
    (rngAdvance_feed_carnivores_go ps _ _ _)

theorem rngAdvance_procreate_go (p : AnimalParams) (sp : Species) (N : Nat) :
    ∀ (xs : List Animal) (r : RngState),
      RngAdvance r (procreate_go p sp N xs r).2.2 := by
  intro xs
  induction xs with
  | nil => intro r; exact rngAdvance_refl r
  | cons a rest ih =>
    intro r
    simp only [procreate_go]
    split
    · split
      · split
        · exact rngAdvance_trans (rngAdvance_drawProb r _)
            (rngAdvance_trans (rngAdvance_birth_weight_sample p _) (ih _))
        · exact rngAdvance_trans (rngAdvance_drawProb r _)
            (rngAdvance_trans (rngAdvance_birth_weight_sample p _) (ih _))
      · exact rngAdvance_trans (rngAdvance_drawProb r _) (ih _)
    · exact ih r

theorem rngAdvance_procreation (ps : ParamStore) (c : Cell) (r : RngState) :
    RngAdvance r (procreation ps c r).2 := by
  unfold procreation
  exact rngAdvance_trans (rngAdvance_drawMod r _)
    (rngAdvance_trans (rngAdvance_procreate_go _ _ _ _ _)
      (rngAdvance_trans (rngAdvance_drawMod _ _)
        (rngAdvance_procreate_go _ _ _ _ _)))

theorem rngAdvance_death_go (p : AnimalParams) : ∀ (xs : List Animal)
    (r : RngState), RngAdvance r (death_go p xs r).2 := by
  intro xs
  induction xs with
  | nil => intro r; exact rngAdvance_refl r
  | cons a rest ih =>
    intro r
    simp only [death_go]
    split
    · exact ih r
    · exact rngAdvance_trans (rngAdvance_drawProb r _) (ih _)

theorem rngAdvance_death (ps : ParamStore) (c : Cell) (r : RngState) :
    RngAdvance r (death ps c r).2 := by
  unfold death
  exact rngAdvance_trans (rngAdvance_death_go ps.herb _ r)
    (rngAdvance_death_go ps.carn _ _)

theorem rngAdvance_migrate_one (p : AnimalParams) (isl0 : Island) (i j : Nat)
    (a : Animal) (r : RngState) :
    RngAdvance r (migrate_one p isl0 i j a r).2 := by
  simp only [migrate_one]
  split
  · split
    · exact rngAdvance_drawProb r (p.mu * fitness p a)
    · exact rngAdvance_trans (rngAdvance_drawProb r (p.mu * fitness p a))
        (rngAdvance_drawMod (drawProb r (p.mu * fitness p a)).2
          (passable_neighbors isl0 i j).length)
  · exact rngAdvance_drawProb r (p.mu * fitness p a)

theorem rngAdvance_migrate_list (p : AnimalParams) (isl0 : Island)
    (i j : Nat) : ∀ (xs : List Animal) (r : RngState),
      RngAdvance r (migrate_list p isl0 i j xs r).2.2 := by
  intro xs
  induction xs with
  | nil => intro r; exact rngAdvance_refl r
  | cons a rest ih =>
    intro r
    simp only [migrate_list]
    split
    · exact rngAdvance_trans (rngAdvance_migrate_one p isl0 i j a r) (ih _)
    · exact rngAdvance_trans (rngAdvance_migrate_one p isl0 i j a r) (ih _)

theorem rngAdvance_migrate_row (ps : ParamStore) (isl0 : Island) (i : Nat) :
    ∀ (row : List Cell) (j : Nat) (r : RngState),
      RngAdvance r (migrate_row ps isl0 i j row r).2.2 := by
  intro row
  induction row with
  | nil => intro j r; exact rngAdvance_refl r
  | cons c rest ih =>
    intro j r
    exact rngAdvance_trans (rngAdvance_migrate_list ps.herb isl0 i j _ r)
      (rngAdvance_trans (rngAdvance_migrate_list ps.carn isl0 i j _ _)
        (ih (j + 1) _))

theorem rngAdvance_migrate_rows (ps : ParamStore) (isl0 : Island) :
    ∀ (rows : List (List Cell)) (i : Nat) (r : RngState),
      RngAdvance r (migrate_rows ps isl0 i rows r).2.2 := by
  intro rows
  induction rows with
  | nil => intro i r; exact rngAdvance_refl r
  | cons row rest ih =>
    intro i r
    exact rngAdvance_trans (rngAdvance_migrate_row ps isl0 i row 0 r)
      (ih (i + 1) _)

theorem rngAdvance_migration (ps : ParamStore) (isl : Island) (r : RngState) :
    RngAdvance r (migration ps isl r).2 := by
  unfold migration
  exact rngAdvance_migrate_rows ps isl isl.cells 0 r

theorem rngAdvance_map_row_rng {f : Cell → RngState → Cell × RngState}
    (hf : ∀ c r, RngAdvance r (f c r).2) : ∀ (row : List Cell) (r : RngState),
      RngAdvance r (map_row_rng f row r).2 := by
  intro row
  induction row with
  | nil => intro r; exact rngAdvance_refl r
  | cons c cs ih =>
    intro r
    exact rngAdvance_trans (hf c r) (ih _)

theorem rngAdvance_map_cells_rng {f : Cell → RngState → Cell × RngState}
    (hf : ∀ c r, RngAdvance r (f c r).2) :
    ∀ (rows : List (List Cell)) (r : RngState),
      RngAdvance r (map_cells_rng f rows r).2 := by
  intro rows
  induction rows with
  | nil => intro r; exact rngAdvance_refl r
  | cons row rest ih =>
    intro r
    exact rngAdvance_trans (rngAdvance_map_row_rng hf row r) (ih _)

theorem rngAdvance_cell_cycle_first (ps : ParamStore) (c : Cell)
    (r : RngState) : RngAdvance r (cell_cycle_first ps c r).2 := by
  unfold cell_cycle_first
  exact rngAdvance_trans (rngAdvance_feed_herbivores ps _ r)
    (rngAdvance_trans (rngAdvance_feed_carnivores ps _ _)
      (rngAdvance_procreation ps _ _))

theorem rngAdvance_cell_cycle_second (ps : ParamStore) (c : Cell)
    (r : RngState) : RngAdvance r (cell_cycle_second ps c r).2 :=
  rngAdvance_death ps _ r

theorem rngAdvance_annual_cycle (ps : ParamStore) (isl : Island)
    (r : RngState) : RngAdvance r (Island.annual_cycle ps isl r).2 := by
  unfold Island.annual_cycle
  exact rngAdvance_trans
    (rngAdvance_map_cells_rng (rngAdvance_cell_cycle_first ps) isl.cells r)
    (rngAdvance_trans (rngAdvance_migration ps _ _)
      (rngAdvance_map_cells_rng (rngAdvance_cell_cycle_second ps) _ _))

/-! ## The simulate loop as iterated annual cycles -/


theorem run_years_succ (ps : ParamStore) (n : Nat) (isl : Island)
    (r : RngState) :
    run_years ps (n + 1) isl r =
      run_years ps n (Island.annual_cycle ps isl r).1
        (Island.annual_cycle ps isl r).2 := rfl

theorem sim_year_params (b : BioSim) : (sim_year b).params = b.params := rfl

theorem sim_year_last_year (b : BioSim) :
    (sim_year b).last_year_simulated = b.last_year_simulated := rfl

theorem sim_year_island (b : BioSim) :
    (sim_year b).island = (Island.annual_cycle b.params b.island b.rng).1 := rfl

theorem sim_year_rng (b : BioSim) :
    (sim_year b).rng = (Island.annual_cycle b.params b.island b.rng).2 := rfl

theorem sim_year_herb (b : BioSim) :
    (sim_year b).herbivore_list = b.herbivore_list ++
      [(Island.total_island_population
          (Island.annual_cycle b.params b.island b.rng).1).1] := rfl

theorem sim_year_carn (b : BioSim) :
    (sim_year b).carnivore_list = b.carnivore_list ++
      [(Island.total_island_population
          (Island.annual_cycle b.params b.island b.rng).1).2] := rfl

theorem simulate_zero (v : Nat) (i : Option Nat) (b : BioSim) :
    BioSim.simulate 0 v i b = b := rfl

theorem simulate_succ (n v : Nat) (i : Option Nat) (b : BioSim) :
    BioSim.simulate (n + 1) v i b = BioSim.simulate n v i (sim_year b) := rfl

/-- The full behaviour of the simulate loop, by induction on the number of
years: the parameter store and `last_year_simulated` are untouched, the island
and stream are the `num_years`-fold iterate of the annual cycle, and each
history list is extended, in order, by that species' island-wide total after
each simulated year. -/
theorem simulate_spec (n : Nat) : ∀ (v : Nat) (i : Option Nat) (b : BioSim),
    (BioSim.simulate n v i b).params = b.params ∧
    (BioSim.simulate n v i b).last_year_simulated = b.last_year_simulated ∧
    (BioSim.simulate n v i b).island = (run_years b.params n b.island b.rng).1 ∧
    (BioSim.simulate n v i b).rng = (run_years b.params n b.island b.rng).2 ∧
    (BioSim.simulate n v i b).herbivore_list = b.herbivore_list ++
      (List.range n).map (fun k => (Island.total_island_population
        (run_years b.params (k + 1) b.island b.rng).1).1) ∧
    (BioSim.simulate n v i b).carnivore_list = b.carnivore_list ++
      (List.range n).map (fun k => (Island.total_island_population
        (run_years b.params (k + 1) b.island b.rng).1).2) := by
  induction n with
  | zero =>
    intro v i b
    refine ⟨rfl, rfl, rfl, rfl, ?_, ?_⟩
    · simp [simulate_zero]
    · simp [simulate_zero]
  | succ n ih =>
    intro v i b
    obtain ⟨hp, hl, hisl, hrng, hherb, hcarn⟩ := ih v i (sim_year b)
    rw [simulate_succ]
    refine ⟨hp.trans (sim_year_params b), hl.trans (sim_year_last_year b),
      ?_, ?_, ?_, ?_⟩
    · rw [hisl, sim_year_params, sim_year_island, sim_year_rng]
      rfl
    · rw [hrng, sim_year_params, sim_year_island, sim_year_rng]
      rfl
    · rw [hherb, sim_year_params, sim_year_island, sim_year_rng, sim_year_herb,
        List.append_assoc, List.singleton_append, List.range_succ_eq_map,
        List.map_cons, List.map_map]
      refine congrArg (fun l => b.herbivore_list ++ l) ?_
      refine congrArg₂ List.cons ?_ ?_
      · rfl
      · exact List.map_congr_left fun k _ => rfl
    · rw [hcarn, sim_year_params, sim_year_island, sim_year_rng, sim_year_carn,
        List.append_assoc, List.singleton_append, List.range_succ_eq_map,
        List.map_cons, List.map_map]
      refine congrArg (fun l => b.carnivore_list ++ l) ?_
      refine congrArg₂ List.cons ?_ ?_
      · rfl
      · exact List.map_congr_left fun k _ => rfl

/-! ## Preservation lemmas for wrapper operations -/

theorem rngAdvance_sim_year (b : BioSim) : RngAdvance b.rng (sim_year b).rng := by
  rw [sim_year_rng]
  exact rngAdvance_annual_cycle b.params b.island b.rng

theorem rngAdvance_simulate (n : Nat) : ∀ (v : Nat) (i : Option Nat)
    (b : BioSim), RngAdvance b.rng (BioSim.simulate n v i b).rng := by
  induction n with
  | zero => intro v i b; exact rngAdvance_refl _
  | succ n ih =>
    intro v i b
    rw [simulate_succ]
    exact rngAdvance_trans (rngAdvance_sim_year b) (ih v i (sim_year b))

theorem rngAdvance_add_population (b : BioSim) (pop : List PopEntry) :
    RngAdvance b.rng (BioSim.add_population b pop).1.rng := by
  unfold BioSim.add_population
  exact rngAdvance_populate_the_island b.params pop b.island b.rng

theorem rngAdvance_applyOp (b : BioSim) (op : Op) :
    RngAdvance b.rng (applyOp b op).rng := by
  cases op with
  | sim n v i => exact rngAdvance_simulate n v i b
  | addPop p => exact rngAdvance_add_population b p

theorem rngAdvance_applyOps : ∀ (ops : List Op) (b : BioSim),
    RngAdvance b.rng (applyOps b ops).rng := by
  intro ops
  induction ops with
  | nil => intro b; exact rngAdvance_refl _
  | cons op rest ih =>
    intro b
    exact rngAdvance_trans (rngAdvance_applyOp b op) (ih (applyOp b op))

theorem add_population_last_year (b : BioSim) (pop : List PopEntry) :
    (BioSim.add_population b pop).1.last_year_simulated =
      b.last_year_simulated := rfl

theorem applyOp_last_year (b : BioSim) (op : Op) :
    (applyOp b op).last_year_simulated = b.last_year_simulated := by
  cases op with
  | sim n v i => exact (simulate_spec n v i b).2.1
  | addPop p => rfl

theorem applyOps_last_year : ∀ (ops : List Op) (b : BioSim),
    (applyOps b ops).last_year_simulated = b.last_year_simulated := by
  intro ops
  induction ops with
  | nil => intro b; rfl
  | cons op rest ih =>
    intro b
    exact (ih (applyOp b op)).trans (applyOp_last_year b op)

/-- Inversion of a successful construction: the island is the parsed map
populated with the initial specification starting from the freshly seeded
stream, and every field of the state is as `__init__` sets it. -/
theorem mkBioSim_ok {m : List String} {p : List PopEntry} {seed : Nat}
    {st : ParamStore} {b : BioSim} (h : mkBioSim m p seed st = .ok b) :
    ∃ isl0, buildIsland m = .ok isl0 ∧
      (Island.populate_the_island st isl0 p (seedRandom seed)).2.2 = none ∧
      b = { last_year_simulated := 0
            island_map := m
            ini_pop := p
            island := (Island.populate_the_island st isl0 p (seedRandom seed)).1
            herbivore_list := [(Island.total_island_population
              (Island.populate_the_island st isl0 p (seedRandom seed)).1).1]
            carnivore_list := [(Island.total_island_population
              (Island.populate_the_island st isl0 p (seedRandom seed)).1).2]
            params := st
            rng := (Island.populate_the_island st isl0 p (seedRandom seed)).2.1 } := by
  unfold mkBioSim at h
  split at h
  · exact absurd h (by simp)
  next isl0 heq =>
    split at h
    · exact absurd h (by simp)
    next hnone =>
      rw [Except.ok.injEq] at h
      exact ⟨isl0, heq, hnone, h.symm⟩

/-! ## Claim theorems: the simulate loop -/

/-- C1: two runs constructed from the same map string, initial population,
parameter settings and seed, and advanced by `simulate` over the same number
of years, have identical `herbivore_list` and `carnivore_list` contents. -/
theorem C1_reproducibility (m : List String) (p : List PopEntry)
    (st : ParamStore) (seed n v : Nat) (i : Option Nat) (b1 b2 : BioSim)
    (h1 : mkBioSim m p seed st = .ok b1)
    (h2 : mkBioSim m p seed st = .ok b2) :
    (BioSim.simulate n v i b1).herbivore_list =
      (BioSim.simulate n v i b2).herbivore_list ∧
    (BioSim.simulate n v i b1).carnivore_list =
      (BioSim.simulate n v i b2).carnivore_list := by
  have hb : b1 = b2 := by
    have h := h1.symm.trans h2
    exact Except.ok.inj h
  subst hb
  exact ⟨rfl, rfl⟩

/-- C2: `simulate num_years` iterates the annual cycle exactly `num_years`
times, appends exactly `num_years` entries to each history list — the entry
for year `k+1` being that species' island-wide total after that year — and
leaves every previously recorded entry in place. -/
theorem C2_simulate_appends_yearly_totals (b : BioSim) (n v : Nat)
    (i : Option Nat) :
    (BioSim.simulate n v i b).island = (run_years b.params n b.island b.rng).1 ∧
    (BioSim.simulate n v i b).herbivore_list = b.herbivore_list ++
      (List.range n).map (fun k => (Island.total_island_population
        (run_years b.params (k + 1) b.island b.rng).1).1) ∧
    (BioSim.simulate n v i b).carnivore_list = b.carnivore_list ++
      (List.range n).map (fun k => (Island.total_island_population
        (run_years b.params (k + 1) b.island b.rng).1).2) ∧
    (BioSim.simulate n v i b).herbivore_list.length =
      b.herbivore_list.length + n ∧
    (BioSim.simulate n v i b).carnivore_list.length =
      b.carnivore_list.length + n := by
  obtain ⟨-, -, hisl, -, hherb, hcarn⟩ := simulate_spec n v i b
  refine ⟨hisl, hherb, hcarn, ?_, ?_⟩
  · rw [hherb, List.length_append, List.length_map, List.length_range]
  · rw [hcarn, List.length_append, List.length_map, List.length_range]

/-- Helper for C9: the `simulate` loop never reads its visualization
arguments. -/
theorem simulate_vis_indep (n : Nat) : ∀ (v1 v2 : Nat) (i1 i2 : Option Nat)
    (b : BioSim), BioSim.simulate n v1 i1 b = BioSim.simulate n v2 i2 b := by
  induction n with
  | zero => intro v1 v2 i1 i2 b; rfl
  | succ n ih =>
    intro v1 v2 i1 i2 b
    rw [simulate_succ, simulate_succ]
    exact ih v1 v2 i1 i2 (sim_year b)

/-- C9: the population trajectory is independent of the visualization
arguments `vis_years` and `img_years`: they are never read, so the history
lists are identical for any two choices. -/
theorem C9_vis_args_never_read (b : BioSim) (n v1 v2 : Nat)
    (i1 i2 : Option Nat) :
    (BioSim.simulate n v1 i1 b).herbivore_list =
      (BioSim.simulate n v2 i2 b).herbivore_list ∧
    (BioSim.simulate n v1 i1 b).carnivore_list =
      (BioSim.simulate n v2 i2 b).carnivore_list := by
  rw [simulate_vis_indep n v1 v2 i1 i2 b]
  exact ⟨rfl, rfl⟩

/-- C3: `last_year_simulated` is set to 0 at construction and no operation
ever updates it, so the `year` property returns 0 after any sequence of
`simulate` and `add_population` calls. -/
theorem C3_year_stuck_at_zero (m : List String) (p : List PopEntry)
    (seed : Nat) (st : ParamStore) (b : BioSim)
    (h : mkBioSim m p seed st = .ok b) (ops : List Op) :
    BioSim.year (applyOps b ops) = 0 := by
  obtain ⟨isl0, -, -, hb⟩ := mkBioSim_ok h
  have h0 : b.last_year_simulated = 0 := by rw [hb]
  unfold BioSim.year
  rw [applyOps_last_year ops b, h0]

/-- C6: the shared random source is seeded exactly once, in the constructor,
before the island is built and populated and before any simulated year: the
constructed state's island and stream are obtained by threading the freshly
seeded stream `seedRandom seed` (position 0) through populate only, the
stream's seed component is `seed`, and no later `simulate` or
`add_population` call ever changes the seed component or moves the stream
backwards (a reseed would reset the position to 0). -/
theorem C6_seeded_once_never_reseeded (m : List String) (p : List PopEntry)
    (seed : Nat) (st : ParamStore) (b : BioSim)
    (h : mkBioSim m p seed st = .ok b) :
    b.rng.seed = seed ∧
    (∃ isl0, buildIsland m = .ok isl0 ∧
      b.island = (Island.populate_the_island st isl0 p (seedRandom seed)).1 ∧
      b.rng = (Island.populate_the_island st isl0 p (seedRandom seed)).2.1) ∧
    (∀ ops : List Op, (applyOps b ops).rng.seed = seed ∧
      b.rng.pos ≤ (applyOps b ops).rng.pos) := by
  obtain ⟨isl0, hbuild, hnone, hb⟩ := mkBioSim_ok h
  have hseed : b.rng.seed = seed := by
    rw [hb]
    exact (rngAdvance_populate_the_island st p isl0 (seedRandom seed)).1
  refine ⟨hseed, ⟨isl0, hbuild, by rw [hb], by rw [hb]⟩, ?_⟩
  intro ops
  have hadv := rngAdvance_applyOps ops b
  exact ⟨hadv.1.trans hseed, hadv.2⟩

/-- C7: construction builds the island grid from the map string, then
populates it with the initial population — with no yearly advance in
between — and initializes each history list with exactly one entry, the
island-wide total of that species in the initial population. -/
theorem C7_construction_order_and_initial_history (m : List String)
    (p : List PopEntry) (seed : Nat) (st : ParamStore) (b : BioSim)
    (h : mkBioSim m p seed st = .ok b) :
    (∃ isl0, buildIsland m = .ok isl0 ∧
      b.island = (Island.populate_the_island st isl0 p (seedRandom seed)).1) ∧
    b.herbivore_list = [(Island.total_island_population b.island).1] ∧
    b.carnivore_list = [(Island.total_island_population b.island).2] ∧
    b.herbivore_list.length = 1 ∧
    b.carnivore_list.length = 1 := by
  obtain ⟨isl0, hbuild, hnone, hb⟩ := mkBioSim_ok h
  subst hb
  exact ⟨⟨isl0, hbuild, rfl⟩, rfl, rfl, rfl, rfl⟩

/-! ## The history lists versus the island's current totals -/


theorem hist_ok_mk {m : List String} {p : List PopEntry} {seed : Nat}
    {st : ParamStore} {b : BioSim} (h : mkBioSim m p seed st = .ok b) :
    hist_ok b := by
  obtain ⟨isl0, -, -, hb⟩ := mkBioSim_ok h
  subst hb
  exact ⟨rfl, rfl⟩

theorem hist_ok_sim_year (b : BioSim) : hist_ok (sim_year b) := by
  constructor
  · rw [sim_year_herb, sim_year_island, List.getLastD_concat]
  · rw [sim_year_carn, sim_year_island, List.getLastD_concat]

theorem hist_ok_simulate (n : Nat) : ∀ (v : Nat) (i : Option Nat)
    (b : BioSim), hist_ok b → hist_ok (BioSim.simulate n v i b) := by
  induction n with
  | zero => intro v i b h; exact h
  | succ n ih =>
    intro v i b h
    rw [simulate_succ]
    exact ih v i (sim_year b) (hist_ok_sim_year b)

theorem num_animals_of_hist_ok {b : BioSim} (h : hist_ok b) :
    BioSim.num_animals b = (Island.total_island_population b.island).1 +
      (Island.total_island_population b.island).2 := by
  unfold BioSim.num_animals
  rw [h.1, h.2]

/-- C4 (amended): after construction and after any sequence of `simulate`
calls, `num_animals` equals the island's current total over both species; the
original claim's extension to `add_population` fails because that call does
not append to the history lists `num_animals` reads. -/
theorem C4_amended_num_animals (m : List String) (p : List PopEntry)
    (seed : Nat) (st : ParamStore) (b : BioSim)
    (h : mkBioSim m p seed st = .ok b)
    (sims : List (Nat × Nat × Option Nat)) :
    BioSim.num_animals
        (sims.foldl (fun s a => BioSim.simulate a.1 a.2.1 a.2.2 s) b) =
      (Island.total_island_population
        (sims.foldl (fun s a => BioSim.simulate a.1 a.2.1 a.2.2 s) b).island).1 +
      (Island.total_island_population
        (sims.foldl (fun s a => BioSim.simulate a.1 a.2.1 a.2.2 s) b).island).2 := by
  have hgen : ∀ (l : List (Nat × Nat × Option Nat)) (s : BioSim), hist_ok s →
      hist_ok (l.foldl (fun s a => BioSim.simulate a.1 a.2.1 a.2.2 s) s) := by
    intro l
    induction l with
    | nil => intro s hs; exact hs
    | cons a rest ih =>
      intro s hs
      rw [List.foldl_cons]
      exact ih _ (hist_ok_simulate a.1 a.2.1 a.2.2 s hs)
  exact num_animals_of_hist_ok (hgen sims b (hist_ok_mk h))

/-! ## Parameter setter lemmas -/

theorem getP_setP_same (p : AnimalParams) (k : ParamKey) (v : ℚ) :
    getP (setP p k v) k = v := by
  cases k <;> rfl

theorem getP_setP_other (p : AnimalParams) (v : ℚ) :
    ∀ (k k2 : ParamKey), k ≠ k2 → getP (setP p k2 v) k = getP p k := by
  intro k k2 hne
  cases k <;> cases k2 <;> first | rfl | exact absurd rfl hne

theorem lookup_mem_str {β : Type} : ∀ (l : List (String × β)) (s : String)
    (b : β), l.lookup s = some b → (s, b) ∈ l := by
  intro l
  induction l with
  | nil => intro s b h; exact absurd h (by simp [List.lookup])
  | cons kv rest ih =>
    intro s b h
    rw [List.lookup] at h
    split at h
    next heq =>
      rw [Option.some_inj] at h
      subst h
      have hs : s = kv.1 := eq_of_beq heq
      subst hs
      exact List.mem_cons_self _ _
    · exact List.mem_cons_of_mem kv (ih s b h)

theorem parse_key_eq {s : String} {k : ParamKey} (h : parse_key s = some k) :
    s = key_string k := by
  have hmem := lookup_mem_str param_key_names s k h
  have hall : ∀ kv ∈ param_key_names, kv.1 = key_string kv.2 := by decide
  exact hall (s, k) hmem

theorem getP_foldl_not_mem : ∀ (kvs : List (String × ℚ)) (p : AnimalParams)
    (k : ParamKey), (∀ kv ∈ kvs, parse_key kv.1 ≠ some k) →
    getP (kvs.foldl apply_animal_param p) k = getP p k := by
  intro kvs
  induction kvs with
  | nil => intro p k _; rfl
  | cons kv rest ih =>
    intro p k hnot
    rw [List.foldl_cons]
    rw [ih (apply_animal_param p kv) k
      (fun kv2 h2 => hnot kv2 (List.mem_cons_of_mem kv h2))]
    unfold apply_animal_param
    split
    next k2 heq =>
      have hk2 : k2 ≠ k := fun hcontra => by
        subst hcontra
        exact hnot kv (List.mem_cons_self kv rest) heq
      exact getP_setP_other p kv.2 k k2 (fun h => hk2 h.symm)
    · rfl

theorem getP_foldl_mem : ∀ (kvs : List (String × ℚ)) (p : AnimalParams)
    (s : String) (v : ℚ) (k : ParamKey), (s, v) ∈ kvs →
    parse_key s = some k → (kvs.map Prod.fst).Nodup →
    getP (kvs.foldl apply_animal_param p) k = v := by
  intro kvs
  induction kvs with
  | nil => intro p s v k hmem; exact absurd hmem (List.not_mem_nil _)
  | cons kv rest ih =>
    intro p s v k hmem hparse hnodup
    rw [List.map_cons, List.nodup_cons] at hnodup
    rcases List.mem_cons.mp hmem with heq | hmem2
    · subst heq
      rw [List.foldl_cons]
      have hnot : ∀ kv2 ∈ rest, parse_key kv2.1 ≠ some k := by
        intro kv2 h2 hcontra
        have h3 : kv2.1 = key_string k := parse_key_eq hcontra
        have h4 : (s, v).1 = key_string k := parse_key_eq hparse
        exact hnodup.1 (h4.trans h3.symm ▸ List.mem_map_of_mem Prod.fst h2)
      rw [getP_foldl_not_mem rest _ k hnot]
      unfold apply_animal_param
      rw [hparse]
      exact getP_setP_same p k v
    · rw [List.foldl_cons]
      exact ih _ s v k hmem2 hparse hnodup.2

/-- After a successful species-setter call the store's parameter set for that
species is the validated fold of the overrides. -/
theorem set_animal_parameters_ok_herb (st : ParamStore)
    {kvs : List (String × ℚ)}
    (h1 : (kvs.all fun kv => known_key .Herbivore kv.1) = true)
    (h2 : (kvs.all fun kv => value_ok_str kv.1 kv.2) = true) :
    st.set_animal_parameters .Herbivore kvs =
      .ok { st with herb := kvs.foldl apply_animal_param st.herb } := by
  unfold ParamStore.set_animal_parameters
  rw [if_neg (by simp [h1]), if_neg (by simp [h2])]

theorem set_animal_parameters_ok_carn (st : ParamStore)
    {kvs : List (String × ℚ)}
    (h1 : (kvs.all fun kv => known_key .Carnivore kv.1) = true)
    (h2 : (kvs.all fun kv => value_ok_str kv.1 kv.2) = true) :
    st.set_animal_parameters .Carnivore kvs =
      .ok { st with carn := kvs.foldl apply_animal_param st.carn } := by
  unfold ParamStore.set_animal_parameters
  rw [if_neg (by simp [h1]), if_neg (by simp [h2])]

theorem set_animal_fail_unchanged (b : BioSim) (sp : Species)
    (kvs : List (String × ℚ)) (e : ParamError)
    (h : (BioSim.set_animal_parameters b sp kvs).2 = some e) :
    (BioSim.set_animal_parameters b sp kvs).1 = b := by
  cases hset : b.params.set_animal_parameters sp kvs with
  | ok st => simp [BioSim.set_animal_parameters, hset] at h
  | error e2 => simp [BioSim.set_animal_parameters, hset]

theorem set_landscape_fail_unchanged (b : BioSim) (t : Terrain)
    (kvs : List (String × ℚ)) (e : ParamError)
    (h : (BioSim.set_landscape_parameters b t kvs).2 = some e) :
    (BioSim.set_landscape_parameters b t kvs).1 = b := by
  cases hset : b.params.set_landscape_parameters t kvs with
  | ok st => simp [BioSim.set_landscape_parameters, hset] at h
  | error e2 => simp [BioSim.set_landscape_parameters, hset]

/-- C5: a setter call with an unknown key or an out-of-range value fails and
leaves the state exactly as it was (all-or-nothing, for both the species and
the landscape setter); a call with only valid keys and in-range values
succeeds, and subsequent reads return the newly set values. -/
theorem C5_setters_all_or_nothing (b : BioSim) (sp : Species) (t : Terrain)
    (kvs kvt : List (String × ℚ)) :
    (∀ e, (BioSim.set_animal_parameters b sp kvs).2 = some e →
       (BioSim.set_animal_parameters b sp kvs).1 = b) ∧
    (∀ e, (BioSim.set_landscape_parameters b t kvt).2 = some e →
       (BioSim.set_landscape_parameters b t kvt).1 = b) ∧
    (¬ (kvs.all fun kv => known_key sp kv.1) = true →
       (BioSim.set_animal_parameters b sp kvs).2 = some .unknownKey) ∧
    ((kvs.all fun kv => known_key sp kv.1) = true →
     ¬ (kvs.all fun kv => value_ok_str kv.1 kv.2) = true →
       (BioSim.set_animal_parameters b sp kvs).2 = some .outOfRange) ∧
    ((kvs.all fun kv => known_key sp kv.1) = true →
     (kvs.all fun kv => value_ok_str kv.1 kv.2) = true →
       (BioSim.set_animal_parameters b sp kvs).2 = none ∧
       ((kvs.map Prod.fst).Nodup → ∀ s v, (s, v) ∈ kvs →
          ParamStore.get_animal_parameter
            (BioSim.set_animal_parameters b sp kvs).1.params sp s = some v)) ∧
    (¬ (kvt.all fun kv => kv.1 = "f_max") = true →
       (BioSim.set_landscape_parameters b t kvt).2 = some .unknownKey) ∧
    ((kvt.all fun kv => kv.1 = "f_max") = true →
     ¬ (kvt.all fun kv => decide (0 ≤ kv.2)) = true →
       (BioSim.set_landscape_parameters b t kvt).2 = some .outOfRange) ∧
    (∀ v : ℚ, 0 ≤ v → (t = .Lowland ∨ t = .Highland) →
       (BioSim.set_landscape_parameters b t [("f_max", v)]).2 = none ∧
       ParamStore.get_landscape_parameter
         (BioSim.set_landscape_parameters b t [("f_max", v)]).1.params t =
           some v) := by
  refine ⟨set_animal_fail_unchanged b sp kvs,
    set_landscape_fail_unchanged b t kvt, ?_, ?_, ?_, ?_, ?_, ?_⟩
  · intro hna
    have hstore : b.params.set_animal_parameters sp kvs = .error .unknownKey := by
      unfold ParamStore.set_animal_parameters
      rw [if_pos hna]
    simp [BioSim.set_animal_parameters, hstore]
  · intro h1 h2
    have hstore : b.params.set_animal_parameters sp kvs = .error .outOfRange := by
      unfold ParamStore.set_animal_parameters
      rw [if_neg (by simp [h1]), if_pos h2]
    simp [BioSim.set_animal_parameters, hstore]
  · intro h1 h2
    cases sp with
    | Herbivore =>
      have hok := set_animal_parameters_ok_herb b.params h1 h2
      constructor
      · simp [BioSim.set_animal_parameters, hok]
      · intro hnodup s v hmem
        have hknown : known_key .Herbivore s = true :=
          List.all_eq_true.mp h1 (s, v) hmem
        unfold known_key at hknown
        split at hknown
        next k hparse =>
          simp only [BioSim.set_animal_parameters, hok,
            ParamStore.get_animal_parameter, hparse, hknown, if_true,
            ParamStore.animal]
          exact congrArg some
            (getP_foldl_mem kvs b.params.herb s v k hmem hparse hnodup)
        · exact absurd hknown (by simp)
    | Carnivore =>
      have hok := set_animal_parameters_ok_carn b.params h1 h2
      constructor
      · simp [BioSim.set_animal_parameters, hok]
      · intro hnodup s v hmem
        have hknown : known_key .Carnivore s = true :=
          List.all_eq_true.mp h1 (s, v) hmem
        unfold known_key at hknown
        split at hknown
        next k hparse =>
          simp only [BioSim.set_animal_parameters, hok,
            ParamStore.get_animal_parameter, hparse, hknown, if_true,
            ParamStore.animal]
          exact congrArg some
            (getP_foldl_mem kvs b.params.carn s v k hmem hparse hnodup)
        · exact absurd hknown (by simp)
  · intro hna
    have hstore : b.params.set_landscape_parameters t kvt = .error .unknownKey := by
      unfold ParamStore.set_landscape_parameters
      rw [if_pos hna]
    simp [BioSim.set_landscape_parameters, hstore]
  · intro h1 h2
    have hstore : b.params.set_landscape_parameters t kvt = .error .outOfRange := by
      unfold ParamStore.set_landscape_parameters
      rw [if_neg (by simp [h1]), if_pos h2]
    simp [BioSim.set_landscape_parameters, hstore]
  · intro v hv ht
    have hstore : b.params.set_landscape_parameters t [("f_max", v)] =
        .ok (match t with
          | .Lowland => { b.params with f_max_lowland := v }
          | .Highland => { b.params with f_max_highland := v }
          | .Water => b.params
          | .Desert => b.params) := by
      unfold ParamStore.set_landscape_parameters
      rw [if_neg (by simp), if_neg (by simp [hv])]
      rcases ht with ht | ht <;> subst ht <;> rfl
    rcases ht with ht | ht <;> subst ht <;>
      simp [BioSim.set_landscape_parameters, hstore,
        ParamStore.get_landscape_parameter]

/-! ## Populating adds and never removes -/

theorem get?_updateAt {α : Type} (f : α → α) : ∀ (l : List α) (i i2 : Nat),
    (updateAt i f l).get? i2 =
      if i = i2 then (l.get? i2).map f else l.get? i2 := by
  intro l
  induction l with
  | nil => intro i i2; simp [updateAt]
  | cons x xs ih =>
    intro i i2
    cases i with
    | zero =>
      cases i2 with
      | zero => simp [updateAt]
      | succ m => simp [updateAt]
    | succ n =>
      cases i2 with
      | zero => simp [updateAt]
      | succ m =>
        simp only [updateAt, List.get?_cons_succ, ih n m]
        by_cases hnm : n = m
        · subst hnm; simp
        · rw [if_neg hnm, if_neg (fun hc => hnm (Nat.succ_injective hc))]

theorem foldl_insertAnimal : ∀ (anims : List Animal) (c : Cell),
    (anims.foldl insertAnimal c).herbivores = c.herbivores ++ herbsOf anims ∧
    (anims.foldl insertAnimal c).carnivores = c.carnivores ++ carnsOf anims ∧
    (anims.foldl insertAnimal c).terrain = c.terrain ∧
    (anims.foldl insertAnimal c).fodder = c.fodder := by
  intro anims
  induction anims with
  | nil =>
    intro c
    simp [herbsOf, carnsOf]
  | cons a rest ih =>
    intro c
    rw [List.foldl_cons]
    cases hsp : a.species with
    | Herbivore =>
      have hins : insertAnimal c a = { c with herbivores := c.herbivores ++ [a] } := by
        unfold insertAnimal
        rw [hsp]
      rw [hins]
      obtain ⟨h1, h2, h3, h4⟩ := ih { c with herbivores := c.herbivores ++ [a] }
      refine ⟨?_, ?_, h3, h4⟩
      · rw [h1]
        simp [herbsOf, List.filter_cons, hsp]
      · rw [h2]
        simp [carnsOf, List.filter_cons, hsp]
    | Carnivore =>
      have hins : insertAnimal c a = { c with carnivores := c.carnivores ++ [a] } := by
        unfold insertAnimal
        rw [hsp]
      rw [hins]
      obtain ⟨h1, h2, h3, h4⟩ := ih { c with carnivores := c.carnivores ++ [a] }
      refine ⟨?_, ?_, h3, h4⟩
      · rw [h1]
        simp [herbsOf, List.filter_cons, hsp]
      · rw [h2]
        simp [carnsOf, List.filter_cons, hsp]

theorem speciesOfString_some {s : String} {sp : Species}
    (h : speciesOfString s = some sp) :
    (sp = .Herbivore ∧ s = "Herbivore") ∨ (sp = .Carnivore ∧ s = "Carnivore") := by
  unfold speciesOfString at h
  split_ifs at h with h1 h2
  · cases h; exact Or.inl ⟨rfl, h1⟩
  · cases h; exact Or.inr ⟨rfl, h2⟩

theorem mkAnimal_species {ps : ParamStore} {d : AnimalDescriptor}
    {r : RngState} {a : Animal} {r1 : RngState}
    (h : mkAnimal ps d r = some (a, r1)) :
    speciesOfString d.species = some a.species := by
  unfold mkAnimal at h
  split at h
  · exact absurd h (by simp)
  next sp hsp =>
    split at h
    · rw [Option.some_inj] at h
      injection h with h1 h2
      rw [← h1]
      exact hsp
    · rw [Option.some_inj] at h
      injection h with h1 h2
      rw [← h1]
      exact hsp

theorem buildAnimals_counts {ps : ParamStore} : ∀ (ds : List AnimalDescriptor)
    (r : RngState) (anims : List Animal) (r2 : RngState),
    buildAnimals ps ds r = some (anims, r2) →
    (herbsOf anims).length = herb_descriptors ds ∧
    (carnsOf anims).length = carn_descriptors ds := by
  intro ds
  induction ds with
  | nil =>
    intro r anims r2 h
    simp only [buildAnimals, Option.some_inj] at h
    injection h with h1 h2
    subst h1
    simp [herbsOf, carnsOf, herb_descriptors, carn_descriptors]
  | cons d rest ih =>
    intro r anims r2 h
    simp only [buildAnimals] at h
    split at h
    · exact absurd h (by simp)
    next a r1 heq =>
      split at h
      · exact absurd h (by simp)
      next more r3 heq2 =>
        rw [Option.some_inj] at h
        injection h with h1 h2
        subst h1
        obtain ⟨ihh, ihc⟩ := ih r1 more r3 heq2
        rcases speciesOfString_some (mkAnimal_species heq) with ⟨hsp, hds⟩ | ⟨hsp, hds⟩
        · constructor
          · simp [herbsOf, List.filter_cons, hsp, herb_descriptors, hds]
            rw [← herbsOf, ihh, herb_descriptors]
          · simp [carnsOf, List.filter_cons, hsp, carn_descriptors, hds]
            rw [← carnsOf, ihc, carn_descriptors]
        · constructor
          · simp [herbsOf, List.filter_cons, hsp, herb_descriptors, hds]
            rw [← herbsOf, ihh, herb_descriptors]
          · simp [carnsOf, List.filter_cons, hsp, carn_descriptors, hds]
            rw [← carnsOf, ihc, carn_descriptors]

theorem sum_map_updateAt {α : Type} (g : α → Nat) (f : α → α) :
    ∀ (l : List α) (i : Nat) (x : α), l.get? i = some x →
    ((updateAt i f l).map g).sum + g x = (l.map g).sum + g (f x) := by
  intro l
  induction l with
  | nil => intro i x h; simp at h
  | cons y ys ih =>
    intro i x h
    cases i with
    | zero =>
      rw [List.get?_cons_zero, Option.some_inj] at h
      subst h
      simp only [updateAt, List.map_cons, List.sum_cons]
      omega
    | succ n =>
      rw [List.get?_cons_succ] at h
      simp only [updateAt, List.map_cons, List.sum_cons]
      have := ih n x h
      omega

theorem total_fst (isl : Island) : (Island.total_island_population isl).1 =
    (isl.cells.map (fun row =>
      (row.map (fun c => c.herbivores.length)).sum)).sum := rfl

theorem total_snd (isl : Island) : (Island.total_island_population isl).2 =
    (isl.cells.map (fun row =>
      (row.map (fun c => c.carnivores.length)).sum)).sum := rfl

theorem modifyCell_cells (isl : Island) (i j : Nat) (f : Cell → Cell) :
    (isl.modifyCell i j f).cells = updateAt i (updateAt j f) isl.cells := rfl

theorem getCell?_eq {isl : Island} {i j : Nat} {c : Cell}
    (h : Island.getCell? isl i j = some c) :
    ∃ row, isl.cells.get? i = some row ∧ row.get? j = some c := by
  unfold Island.getCell? at h
  cases hrow : isl.cells.get? i with
  | none => rw [hrow] at h; exact absurd h (by simp)
  | some row =>
    rw [hrow] at h
    exact ⟨row, rfl, h⟩

theorem getCell?_modifyCell (isl : Island) (i j i2 j2 : Nat)
    (f : Cell → Cell) :
    Island.getCell? (isl.modifyCell i j f) i2 j2 =
      if i = i2 ∧ j = j2 then (Island.getCell? isl i2 j2).map f
      else Island.getCell? isl i2 j2 := by
  unfold Island.getCell?
  rw [modifyCell_cells, get?_updateAt]
  by_cases hi : i = i2
  · subst hi
    rw [if_pos rfl]
    cases hrow : isl.cells.get? i with
    | none => simp
    | some row =>
      simp only [Option.map_some', Option.some_bind]
      rw [get?_updateAt]
      by_cases hj : j = j2
      · subst hj
        simp
      · rw [if_neg hj, if_neg (fun hand => hj hand.2)]
  · rw [if_neg hi, if_neg (fun hand => hi hand.1)]

theorem grows_into_refl (isl : Island) : isl.grows_into isl :=
  fun _ _ c h =>
    ⟨c, h, rfl, ⟨[], (List.append_nil _).symm⟩, ⟨[], (List.append_nil _).symm⟩⟩

theorem grows_into_trans {a b c : Island} (h1 : a.grows_into b)
    (h2 : b.grows_into c) : a.grows_into c := by
  intro i j x hx
  obtain ⟨y, hy, ht1, ⟨t1, hh1⟩, ⟨u1, hc1⟩⟩ := h1 i j x hx
  obtain ⟨z, hz, ht2, ⟨t2, hh2⟩, ⟨u2, hc2⟩⟩ := h2 i j y hy
  refine ⟨z, hz, ht2.trans ht1, ⟨t1 ++ t2, ?_⟩, ⟨u1 ++ u2, ?_⟩⟩
  · rw [hh2, hh1, List.append_assoc]
  · rw [hc2, hc1, List.append_assoc]

theorem populate_entry_ok {ps : ParamStore} {isl : Island} {e : PopEntry}
    {r : RngState} {isl1 : Island} {r1 : RngState}
    (h : populate_entry ps isl e r = .ok (isl1, r1)) :
    (Island.total_island_population isl1).1 =
      (Island.total_island_population isl).1 + herb_descriptors e.pop ∧
    (Island.total_island_population isl1).2 =
      (Island.total_island_population isl).2 + carn_descriptors e.pop ∧
    isl.grows_into isl1 := by
  unfold populate_entry at h
  split at h
  · exact absurd h (by simp)
  · split at h
    · exact absurd h (by simp)
    next c hcell =>
      split at h
      · exact absurd h (by simp)
      next hterr =>
        split at h
        · exact absurd h (by simp)
        next anims r2 hbuild =>
          rw [Except.ok.injEq] at h
          injection h with h1 h2
          subst h1
          obtain ⟨row, hrow, hcol⟩ := getCell?_eq hcell
          obtain ⟨hcnt1, hcnt2⟩ := buildAnimals_counts e.pop r anims r2 hbuild
          refine ⟨?_, ?_, ?_⟩
          · have houter := sum_map_updateAt
              (fun row => (row.map (fun c => c.herbivores.length)).sum)
              (updateAt (e.loc.2 - 1) (fun cell => anims.foldl insertAnimal cell))
              isl.cells (e.loc.1 - 1) row hrow
            have hinner := sum_map_updateAt (fun c => c.herbivores.length)
              (fun cell => anims.foldl insertAnimal cell)
              row (e.loc.2 - 1) c hcol
            have hflen : (anims.foldl insertAnimal c).herbivores.length =
                c.herbivores.length + (herbsOf anims).length := by
              rw [(foldl_insertAnimal anims c).1, List.length_append]
            rw [total_fst, total_fst, modifyCell_cells]
            dsimp only at houter hinner ⊢
            omega
          · have houter := sum_map_updateAt
              (fun row => (row.map (fun c => c.carnivores.length)).sum)
              (updateAt (e.loc.2 - 1) (fun cell => anims.foldl insertAnimal cell))
              isl.cells (e.loc.1 - 1) row hrow
            have hinner := sum_map_updateAt (fun c => c.carnivores.length)
              (fun cell => anims.foldl insertAnimal cell)
              row (e.loc.2 - 1) c hcol
            have hflen : (anims.foldl insertAnimal c).carnivores.length =
                c.carnivores.length + (carnsOf anims).length := by
              rw [(foldl_insertAnimal anims c).2.1, List.length_append]
            rw [total_snd, total_snd, modifyCell_cells]
            dsimp only at houter hinner ⊢
            omega
          · intro i2 j2 c2 hc2
            rw [getCell?_modifyCell]
            by_cases hij : (e.loc.1 - 1) = i2 ∧ (e.loc.2 - 1) = j2
            · rw [if_pos hij, hc2]
              exact ⟨anims.foldl insertAnimal c2, rfl,
                (foldl_insertAnimal anims c2).2.2.1,
                ⟨herbsOf anims, (foldl_insertAnimal anims c2).1⟩,
                ⟨carnsOf anims, (foldl_insertAnimal anims c2).2.1⟩⟩
            · rw [if_neg hij]
              exact ⟨c2, hc2, rfl, ⟨[], (List.append_nil _).symm⟩,
                ⟨[], (List.append_nil _).symm⟩⟩

theorem populate_the_island_ok (ps : ParamStore) : ∀ (pop : List PopEntry)
    (isl : Island) (r : RngState),
    (Island.populate_the_island ps isl pop r).2.2 = none →
    (Island.total_island_population
        (Island.populate_the_island ps isl pop r).1).1 =
      (Island.total_island_population isl).1 + herbs_described pop ∧
    (Island.total_island_population
        (Island.populate_the_island ps isl pop r).1).2 =
      (Island.total_island_population isl).2 + carns_described pop ∧
    isl.grows_into (Island.populate_the_island ps isl pop r).1 := by
  intro pop
  induction pop with
  | nil =>
    intro isl r _
    refine ⟨?_, ?_, grows_into_refl isl⟩
    · simp [Island.populate_the_island, herbs_described]
    · simp [Island.populate_the_island, carns_described]
  | cons e rest ih =>
    intro isl r h
    cases hpe : populate_entry ps isl e r with
    | error err =>
      rw [Island.populate_the_island, hpe] at h
      exact absurd h (by simp)
    | ok pr =>
      rw [Island.populate_the_island, hpe] at h
      obtain ⟨iht1, iht2, ihg⟩ := ih pr.1 pr.2 h
      have hep : populate_entry ps isl e r = .ok (pr.1, pr.2) := hpe
      obtain ⟨he1, he2, heg⟩ := populate_entry_ok hep
      have hred : Island.populate_the_island ps isl (e :: rest) r =
          Island.populate_the_island ps pr.1 rest pr.2 := by
        rw [Island.populate_the_island, hpe]
      rw [hred]
      refine ⟨?_, ?_, grows_into_trans heg ihg⟩
      · rw [iht1, he1]
        simp only [herbs_described, List.map_cons, List.sum_cons]
        omega
      · rw [iht2, he2]
        simp only [carns_described, List.map_cons, List.sum_cons]
        omega

/-- C8: a successful `add_population` call is purely additive — the
per-species island totals increase by exactly the numbers of described
animals, and every cell keeps its previous animals (its species lists are
only extended). -/
theorem C8_add_population_additive (b : BioSim) (pop : List PopEntry)
    (h : (BioSim.add_population b pop).2 = none) :
    (Island.total_island_population (BioSim.add_population b pop).1.island).1 =
      (Island.total_island_population b.island).1 + herbs_described pop ∧
    (Island.total_island_population (BioSim.add_population b pop).1.island).2 =
      (Island.total_island_population b.island).2 + carns_described pop ∧
    b.island.grows_into (BioSim.add_population b pop).1.island := by
  have h2 : (Island.populate_the_island b.params b.island pop b.rng).2.2 = none := h
  exact populate_the_island_ok b.params pop b.island b.rng h2

/-- C10: `num_animals_per_species` reads the island's current state — so an
`add_population` call is reflected immediately — and its keys are exactly
`"Herbivores"` and the singular `"Carnivore"`, unlike the plural
`"Carnivores"` column of `animal_distribution`. -/
theorem C10_per_species_reads_island (b : BioSim) (pop : List PopEntry) :
    (BioSim.num_animals_per_species b).map Prod.fst =
      ["Herbivores", "Carnivore"] ∧
    (BioSim.num_animals_per_species b).lookup "Herbivores" =
      some (Island.total_island_population b.island).1 ∧
    (BioSim.num_animals_per_species b).lookup "Carnivore" =
      some (Island.total_island_population b.island).2 ∧
    BioSim.num_animals_per_species (BioSim.add_population b pop).1 =
      [("Herbivores", (Island.total_island_population
          (BioSim.add_population b pop).1.island).1),
       ("Carnivore", (Island.total_island_population
          (BioSim.add_population b pop).1.island).2)] ∧
    (BioSim.animal_distribution b).columns = ["Herbivores", "Carnivores"] ∧
    "Carnivore" ≠ "Carnivores" := by
  refine ⟨rfl, ?_, ?_, rfl, rfl, by decide⟩
  · simp [BioSim.num_animals_per_species, List.lookup]
  · simp [BioSim.num_animals_per_species, List.lookup]

/-- C4, counterexample to the claim as stated: after an `add_population` call
that adds one herbivore, `num_animals` still reports the pre-call total (it
reads the history lists, which `add_population` does not update), while the
island's per-species totals already include the new animal. -/
theorem C4_counterexample :
    BioSim.num_animals (BioSim.add_population exB exAdd).1 ≠
      (Island.total_island_population
        (BioSim.add_population exB exAdd).1.island).1 +
      (Island.total_island_population
        (BioSim.add_population exB exAdd).1.island).2 := by
  with_unfolding_all decide

/-! ## Witnesses: the hypotheses of the claim theorems hold at the concrete
instance -/

theorem C1_witness :
    (BioSim.simulate 2 1 none exB).herbivore_list =
      (BioSim.simulate 2 1 none exB).herbivore_list ∧
    (BioSim.simulate 2 1 none exB).carnivore_list =
      (BioSim.simulate 2 1 none exB).carnivore_list :=
  C1_reproducibility exMap exPop defaultParams 123 2 1 none exB exB
    (by with_unfolding_all decide) (by with_unfolding_all decide)

theorem C3_witness :
    BioSim.year (applyOps exB [Op.sim 2 1 none, Op.addPop exAdd]) = 0 :=
  C3_year_stuck_at_zero exMap exPop 123 defaultParams exB
    (by with_unfolding_all decide) [Op.sim 2 1 none, Op.addPop exAdd]

theorem C4_amended_witness :
    BioSim.num_animals
        (([((2 : Nat), (1 : Nat), (none : Option Nat))]).foldl
          (fun s a => BioSim.simulate a.1 a.2.1 a.2.2 s) exB) =
      (Island.total_island_population
        (([((2 : Nat), (1 : Nat), (none : Option Nat))]).foldl
          (fun s a => BioSim.simulate a.1 a.2.1 a.2.2 s) exB).island).1 +
      (Island.total_island_population
        (([((2 : Nat), (1 : Nat), (none : Option Nat))]).foldl
          (fun s a => BioSim.simulate a.1 a.2.1 a.2.2 s) exB).island).2 :=
  C4_amended_num_animals exMap exPop 123 defaultParams exB
    (by with_unfolding_all decide) [(2, 1, none)]

theorem C5_witness :
    (BioSim.set_animal_parameters exB .Herbivore [("beta", 1/2)]).2 = none ∧
    ParamStore.get_animal_parameter
      (BioSim.set_animal_parameters exB .Herbivore [("beta", 1/2)]).1.params
      .Herbivore "beta" = some (1/2) ∧
    (BioSim.set_animal_parameters exB .Herbivore [("bogus", 1)]).1 = exB ∧
    (BioSim.set_landscape_parameters exB .Lowland [("f_max", 500)]).2 = none ∧
    (BioSim.set_landscape_parameters exB .Lowland [("f_max", -1)]).2 =
      some ParamError.outOfRange ∧
    (BioSim.set_landscape_parameters exB .Lowland [("f_max", -1)]).1 = exB := by
  refine ⟨?_, ?_, ?_, ?_, ?_, ?_⟩
  · exact ((C5_setters_all_or_nothing exB .Herbivore .Lowland [("beta", 1/2)]
      [("f_max", 500)]).2.2.2.2.1 (by with_unfolding_all decide)
      (by with_unfolding_all decide)).1
  · exact ((C5_setters_all_or_nothing exB .Herbivore .Lowland [("beta", 1/2)]
      [("f_max", 500)]).2.2.2.2.1 (by with_unfolding_all decide)
      (by with_unfolding_all decide)).2 (by with_unfolding_all decide)
      "beta" (1/2) (by with_unfolding_all decide)
  · exact (C5_setters_all_or_nothing exB .Herbivore .Lowland [("bogus", 1)]
      [("f_max", 500)]).1 ParamError.unknownKey (by with_unfolding_all decide)
  · exact ((C5_setters_all_or_nothing exB .Herbivore .Lowland [("beta", 1/2)]
      [("f_max", 500)]).2.2.2.2.2.2.2 500 (by with_unfolding_all decide)
      (Or.inl rfl)).1
  · exact (C5_setters_all_or_nothing exB .Herbivore .Lowland [("beta", 1/2)]
      [("f_max", -1)]).2.2.2.2.2.2.1 (by with_unfolding_all decide)
      (by with_unfolding_all decide)
  · exact (C5_setters_all_or_nothing exB .Herbivore .Lowland [("beta", 1/2)]
      [("f_max", -1)]).2.1 ParamError.outOfRange (by with_unfolding_all decide)

theorem C6_witness :
    exB.rng.seed = 123 ∧
    (∃ isl0, buildIsland exMap = .ok isl0 ∧
      exB.island =
        (Island.populate_the_island defaultParams isl0 exPop (seedRandom 123)).1 ∧
      exB.rng =
        (Island.populate_the_island defaultParams isl0 exPop (seedRandom 123)).2.1) ∧
    (∀ ops : List Op, (applyOps exB ops).rng.seed = 123 ∧
      exB.rng.pos ≤ (applyOps exB ops).rng.pos) :=
  C6_seeded_once_never_reseeded exMap exPop 123 defaultParams exB
    (by with_unfolding_all decide)

theorem C7_witness :
    (∃ isl0, buildIsland exMap = .ok isl0 ∧
      exB.island =
        (Island.populate_the_island defaultParams isl0 exPop (seedRandom 123)).1) ∧
    exB.herbivore_list = [(Island.total_island_population exB.island).1] ∧
    exB.carnivore_list = [(Island.total_island_population exB.island).2] ∧
    exB.herbivore_list.length = 1 ∧
    exB.carnivore_list.length = 1 :=
  C7_construction_order_and_initial_history exMap exPop 123 defaultParams exB
    (by with_unfolding_all decide)

theorem C8_witness :
    (BioSim.add_population exB exAdd).2 = none ∧
    ((Island.total_island_population
        (BioSim.add_population exB exAdd).1.island).1 =
      (Island.total_island_population exB.island).1 + herbs_described exAdd ∧
    (Island.total_island_population
        (BioSim.add_population exB exAdd).1.island).2 =
      (Island.total_island_population exB.island).2 + carns_described exAdd ∧
    exB.island.grows_into (BioSim.add_population exB exAdd).1.island) :=
  ⟨by with_unfolding_all decide,
   C8_add_population_additive exB exAdd (by with_unfolding_all decide)⟩
